import Mathlib

/-!
# JWM process-lifecycle controller (`src/main.c`)

A shallow embedding of `main.c`: the global variables of the translation unit
become the fields of `State`, every function of the file becomes a Lean
function of the same name, and every call that leaves the file (subsystem
hooks, Xlib wrappers, libc) is recorded, in order, in the ghost field
`State.trace`.  The meaning of the calls that leave the file is supplied by an
environment `Env`.

`exit` and a successful `execl` end the run; a `WaitForEvent` with no event
left never returns.  `Result` tells these apart from a normal return.  The
`do ... while` of `main` runs for at most a given number of cycles.

Signal delivery is not interleaved with the program: `HandleExit` is a
function on `State`, and a signal that arrives during a dispatch is part of
what `Env.ProcessEvent` does to the shared variables.
-/

set_option autoImplicit false

namespace Jwm

/-! ## Data model -/

/-- The subsystems whose hooks `main.c` sequences. -/
inductive Subsystem where
  | Borders | Clients | Clock | Colors | Commands | Cursors | Desktops
  | Dialogs | Dock | Fonts | Groups | Hints | Icons | Keys | Outline
  | Pager | Placement | Popup | RootMenu | Screens | Swallow | TaskBar
  | Timing | Tray | TrayButtons
  deriving DecidableEq, Repr

/-- The four lifecycle phases; `hook p k` stands for the C function named
`<p><k>`, for instance `StartupColors`. -/
inductive Phase where
  | Initialize | Startup | Shutdown | Destroy
  deriving DecidableEq, Repr

/-- The signals for which `main.c` installs a handler. -/
inductive Signal where
  | SIGTERM | SIGINT | SIGHUP
  deriving DecidableEq, Repr

/-- Disposition of a signal: the default one, or `HandleExit`. -/
inductive Handler where
  | SIG_DFL | HandleExit
  deriving DecidableEq, Repr

/-- The client-message view of an `XEvent` (the only view `main.c` writes). -/
structure XEvent where
  type : Nat
  window : Nat
  message_type : Nat
  format : Nat
  data : List Int
  deriving DecidableEq, Repr

/-- The event produced by `memset(&event, 0, sizeof(event))`. -/
def XEvent.zero : XEvent :=
  { type := 0, window := 0, message_type := 0, format := 0, data := [0, 0, 0, 0, 0] }

/-- What the Xlib macros `DefaultScreen`, `RootWindow`, `DisplayWidth`,
`DisplayHeight`, `DefaultDepth`, `DefaultColormap`, `DefaultVisual` and
`MaxCmapsOfScreen` read from an open `Display`. -/
structure Display where
  screen : Nat
  root : Nat
  width : Nat
  height : Nat
  depth : Nat
  colormap : Nat
  visual : Nat
  maxCmaps : Nat
  deriving DecidableEq, Repr

def ButtonPressMask : Nat := 2 ^ 2

def ButtonReleaseMask : Nat := 2 ^ 3

def SubstructureNotifyMask : Nat := 2 ^ 19

def SubstructureRedirectMask : Nat := 2 ^ 20

def PropertyChangeMask : Nat := 2 ^ 22

def ColormapChangeMask : Nat := 2 ^ 23

def CWEventMask : Nat := 2 ^ 11

def ClientMessage : Nat := 33

/-- The string constant `CONFIG_FILE` of `main.c`. -/
def CONFIG_FILE : String := "/.jwmrc"

/-- A call that leaves `main.c`, with the arguments that matter. -/
inductive Call where
  | StartDebug
  | StopDebug
  | DisplayAbout
  | DisplayHelp
  | DisplayUsage
  | hook (p : Phase) (k : Subsystem)
  | ParseConfig (path : Option String)
  | Release (str : String)
  | JXOpenDisplay (name : Option String)
  | printf (msg : String)
  | XSynchronize
  | JXSetErrorHandler
  | XUniqueContext
  | JXChangeWindowAttributes (w : Nat) (valuemask : Nat) (event_mask : Nat)
  | signal (sig : Signal) (h : Handler)
  | JXShapeQueryExtension
  | Debug (msg : String)
  | JXFlush
  | JXCloseDisplay
  | WaitForEvent
  | ProcessEvent (e : XEvent)
  | SetDefaultCursor (w : Nat)
  | ReadCurrentDesktop
  | RestackClients
  | JXInternAtom (name : String)
  | JXSendEvent (w : Nat) (propagate : Bool) (event_mask : Nat) (e : XEvent)
  | execl (path : String) (args : List String)
  | Warning (msg : String)
  deriving DecidableEq, Repr

/-- The variables that code outside `main.c` writes while the window manager
runs: the two loop flags, the exit command, and the state `sub` that the
subsystems keep for themselves. -/
structure Control (σ : Type) where
  shouldExit : Bool
  shouldRestart : Bool
  exitCommand : Option String
  sub : σ
  deriving DecidableEq, Repr

/-- The global variables of `main.c`, the dispositions of the three signals,
the events that have not been delivered yet, and the log of calls. -/
structure State (σ : Type) where
  display : Option Display
  rootWindow : Nat
  rootWidth : Nat
  rootHeight : Nat
  rootDepth : Nat
  rootScreen : Nat
  rootColormap : Nat
  rootVisual : Nat
  colormapCount : Nat
  initializing : Bool
  ctl : Control σ
  clientContext : Nat
  frameContext : Nat
  haveShape : Bool
  shapeEvent : Nat
  configPath : Option String
  displayString : Option String
  onSIGTERM : Handler
  onSIGINT : Handler
  onSIGHUP : Handler
  pending : List XEvent
  trace : List Call
  deriving DecidableEq, Repr

/-- The state at process start: the initialisers of `main.c`. -/
def State.init {σ : Type} (sub : σ) (events : List XEvent) : State σ :=
  { display := none, rootWindow := 0, rootWidth := 0, rootHeight := 0, rootDepth := 0,
    rootScreen := 0, rootColormap := 0, rootVisual := 0, colormapCount := 0,
    initializing := false,
    ctl := { shouldExit := false, shouldRestart := false, exitCommand := none, sub := sub },
    clientContext := 0, frameContext := 0, haveShape := false, shapeEvent := 0,
    configPath := none, displayString := none,
    onSIGTERM := .SIG_DFL, onSIGINT := .SIG_DFL, onSIGHUP := .SIG_DFL,
    pending := events, trace := [] }

/-- The build options, the process environment and the meaning of the calls
that leave `main.c`.  Subsystem hooks and the configuration parser act on the
subsystem state only; the event dispatcher may also write the loop flags and
the exit command. -/
structure Env (σ : Type) where
  DISABLE_CONFIRM : Bool
  USE_SHAPE : Bool
  SHELL_NAME : String
  HOME : Option String
  hook : Phase → Subsystem → σ → σ
  ParseConfig : Option String → σ → σ
  ProcessEvent : XEvent → Control σ → Control σ
  JXOpenDisplay : Option String → Option Display
  XUniqueContext : Nat → Nat
  JXShapeQueryExtension : Bool × Nat
  JXInternAtom : String → Nat
  execl : String → List String → Bool

/-- How a function of `main.c` ends. -/
inductive Result (σ : Type) where
  /-- The function returned to its caller. -/
  | ret (s : State σ)
  /-- The process ended through `exit(code)`. -/
  | exit (code : Int) (s : State σ)
  /-- The process image was replaced by `execl`. -/
  | exec (s : State σ)
  /-- The process waits in `WaitForEvent` for an event that never comes. -/
  | block (s : State σ)
  /-- The number of restart cycles allowed to the model is used up. -/
  | timeout (s : State σ)
  deriving DecidableEq, Repr

/-- Sequencing: the rest of the caller runs only when the callee returned. -/
def Result.bind {σ : Type} (r : Result σ) (f : State σ → Result σ) : Result σ :=
  match r with
  | .ret s => f s
  | .exit c s => .exit c s
  | .exec s => .exec s
  | .block s => .block s
  | .timeout s => .timeout s

/-- The state in which a result was reached. -/
def Result.state {σ : Type} : Result σ → State σ
  | .ret s => s
  | .exit _ s => s
  | .exec s => s
  | .block s => s
  | .timeout s => s

/-- The exit status, when the process ended through `exit`. -/
def Result.status {σ : Type} : Result σ → Option Int
  | .exit c _ => some c
  | _ => none

/-! ## The functions of `main.c` -/

section Definitions

variable {σ : Type}

/-- Record a call in the log. -/
def call (c : Call) (s : State σ) : State σ :=
  { s with trace := s.trace ++ [c] }

/-- Call of the subsystem hook `<p><k>()`. -/
def hook (env : Env σ) (p : Phase) (k : Subsystem) (s : State σ) : State σ :=
  call (.hook p k) { s with ctl := { s.ctl with sub := env.hook p k s.ctl.sub } }

/-- The hook of the confirm-dialog subsystem, compiled under
`#ifndef DISABLE_CONFIRM`. -/
def hookDialogs (env : Env σ) (p : Phase) (s : State σ) : State σ :=
  if env.DISABLE_CONFIRM then s else hook env p .Dialogs s

/-- `ParseConfig(configPath)`. -/
def ParseConfig (env : Env σ) (s : State σ) : State σ :=
  call (.ParseConfig s.configPath)
    { s with ctl := { s.ctl with sub := env.ParseConfig s.configPath s.ctl.sub } }

/-- `signal(sig, h)`. -/
def signal (sig : Signal) (h : Handler) (s : State σ) : State σ :=
  call (.signal sig h)
    (match sig with
     | .SIGTERM => { s with onSIGTERM := h }
     | .SIGINT => { s with onSIGINT := h }
     | .SIGHUP => { s with onSIGHUP := h })

/-- `Initialize` (main.c 280-308). -/
def Initialize (env : Env σ) (s : State σ) : State σ :=
  s |> hook env .Initialize .Borders
    |> hook env .Initialize .Clients
    |> hook env .Initialize .Clock
    |> hook env .Initialize .Colors
    |> hook env .Initialize .Commands
    |> hook env .Initialize .Cursors
    |> hook env .Initialize .Desktops
    |> hookDialogs env .Initialize
    |> hook env .Initialize .Dock
    |> hook env .Initialize .Fonts
    |> hook env .Initialize .Groups
    |> hook env .Initialize .Hints
    |> hook env .Initialize .Icons
    |> hook env .Initialize .Keys
    |> hook env .Initialize .Outline
    |> hook env .Initialize .Pager
    |> hook env .Initialize .Placement
    |> hook env .Initialize .Popup
    |> hook env .Initialize .RootMenu
    |> hook env .Initialize .Screens
    |> hook env .Initialize .Swallow
    |> hook env .Initialize .TaskBar
    |> hook env .Initialize .Timing
    |> hook env .Initialize .Tray
    |> hook env .Initialize .TrayButtons

/-- `Startup` (main.c 313-356). -/
def Startup (env : Env σ) (s : State σ) : State σ :=
  s |> hook env .Startup .Commands
    |> hook env .Startup .Screens
    |> hook env .Startup .Groups
    |> hook env .Startup .Colors
    |> hook env .Startup .Icons
    |> hook env .Startup .Fonts
    |> hook env .Startup .Cursors
    |> hook env .Startup .Outline
    |> hook env .Startup .Pager
    |> hook env .Startup .Swallow
    |> hook env .Startup .Clock
    |> hook env .Startup .TaskBar
    |> hook env .Startup .TrayButtons
    |> hook env .Startup .Dock
    |> hook env .Startup .Tray
    |> hook env .Startup .Keys
    |> hook env .Startup .Desktops
    |> hook env .Startup .Hints
    |> hook env .Startup .Borders
    |> hook env .Startup .Clients
    |> hook env .Startup .Placement
    |> hook env .Startup .Timing
    |> hookDialogs env .Startup
    |> hook env .Startup .Popup
    |> hook env .Startup .RootMenu
    |> (fun s => call (.SetDefaultCursor s.rootWindow) s)
    |> call .ReadCurrentDesktop
    |> call .JXFlush
    |> call .RestackClients

/-- `Shutdown` (main.c 361-395). -/
def Shutdown (env : Env σ) (s : State σ) : State σ :=
  s |> hook env .Shutdown .Outline
    |> hookDialogs env .Shutdown
    |> hook env .Shutdown .Popup
    |> hook env .Shutdown .Keys
    |> hook env .Shutdown .Pager
    |> hook env .Shutdown .RootMenu
    |> hook env .Shutdown .Dock
    |> hook env .Shutdown .Tray
    |> hook env .Shutdown .TrayButtons
    |> hook env .Shutdown .TaskBar
    |> hook env .Shutdown .Swallow
    |> hook env .Shutdown .Clock
    |> hook env .Shutdown .Borders
    |> hook env .Shutdown .Clients
    |> hook env .Shutdown .Icons
    |> hook env .Shutdown .Cursors
    |> hook env .Shutdown .Fonts
    |> hook env .Shutdown .Colors
    |> hook env .Shutdown .Groups
    |> hook env .Shutdown .Desktops
    |> hook env .Shutdown .Placement
    |> hook env .Shutdown .Hints
    |> hook env .Shutdown .Timing
    |> hook env .Shutdown .Screens
    |> hook env .Shutdown .Commands

/-- `Destroy` (main.c 401-429). -/
def Destroy (env : Env σ) (s : State σ) : State σ :=
  s |> hook env .Destroy .Borders
    |> hook env .Destroy .Clients
    |> hook env .Destroy .Clock
    |> hook env .Destroy .Colors
    |> hook env .Destroy .Commands
    |> hook env .Destroy .Cursors
    |> hook env .Destroy .Desktops
    |> hookDialogs env .Destroy
    |> hook env .Destroy .Dock
    |> hook env .Destroy .Fonts
    |> hook env .Destroy .Groups
    |> hook env .Destroy .Hints
    |> hook env .Destroy .Icons
    |> hook env .Destroy .Keys
    |> hook env .Destroy .Outline
    |> hook env .Destroy .Pager
    |> hook env .Destroy .Placement
    |> hook env .Destroy .Popup
    |> hook env .Destroy .RootMenu
    |> hook env .Destroy .Screens
    |> hook env .Destroy .Swallow
    |> hook env .Destroy .TaskBar
    |> hook env .Destroy .Timing
    |> hook env .Destroy .Tray
    |> hook env .Destroy .TrayButtons

/-- `DoExit` (main.c 166-180). -/
def DoExit (env : Env σ) (code : Int) (s : State σ) : Result σ :=
  let s := Destroy env s
  let s := match s.configPath with
    | some p => { call (.Release p) s with configPath := none }
    | none => s
  let s := match s.ctl.exitCommand with
    | some c => { call (.Release c) s with ctl := { s.ctl with exitCommand := none } }
    | none => s
  let s := call .StopDebug s
  .exit code s

/-- `WaitForEvent(&event)` when the event `e` is the next to arrive and the
events `rest` follow it. -/
def WaitForEvent (rest : List XEvent) (s : State σ) : State σ :=
  call .WaitForEvent { s with pending := rest }

/-- `ProcessEvent(&event)`. -/
def ProcessEvent (env : Env σ) (e : XEvent) (s : State σ) : State σ :=
  call (.ProcessEvent e) { s with ctl := env.ProcessEvent e s.ctl }

/-- The loop of `EventLoop` over the events that are still to arrive. -/
def EventLoop.go (env : Env σ) : List XEvent → State σ → Result σ
  | [], s => if s.ctl.shouldExit then .ret s else .block (call .WaitForEvent s)
  | e :: rest, s =>
    if s.ctl.shouldExit then .ret s
    else EventLoop.go env rest (ProcessEvent env e (WaitForEvent rest s))

/-- `EventLoop` (main.c 184-191). -/
def EventLoop (env : Env σ) (s : State σ) : Result σ :=
  EventLoop.go env s.pending s

/-- `OpenConnection` (main.c 195-213). -/
def OpenConnection (env : Env σ) (s : State σ) : Result σ :=
  let s := call (.JXOpenDisplay s.displayString)
    { s with display := env.JXOpenDisplay s.displayString }
  match s.display with
  | none =>
    match s.displayString with
    | some name => DoExit env 1 (call (.printf ("error: could not open display " ++ name ++ "\n")) s)
    | none => DoExit env 1 (call (.printf "error: could not open display\n") s)
  | some d =>
    .ret { s with rootScreen := d.screen, rootWindow := d.root, rootWidth := d.width,
                  rootHeight := d.height, rootDepth := d.depth, rootColormap := d.colormap,
                  rootVisual := d.visual, colormapCount := d.maxCmaps }

/-- `HandleExit` (main.c 270-275). -/
def HandleExit (s : State σ) : State σ :=
  let s := signal .SIGTERM .HandleExit s
  let s := signal .SIGINT .HandleExit s
  let s := signal .SIGHUP .HandleExit s
  { s with ctl := { s.ctl with shouldExit := true } }

/-- The event mask that `StartupConnection` selects on the root window. -/
def rootEventMask : Nat :=
  SubstructureRedirectMask ||| SubstructureNotifyMask ||| PropertyChangeMask
    ||| ColormapChangeMask ||| ButtonPressMask ||| ButtonReleaseMask

/-- `StartupConnection` (main.c 217-253). -/
def StartupConnection (env : Env σ) (s : State σ) : Result σ :=
  let s := { s with initializing := true }
  (OpenConnection env s).bind fun s =>
  let s := call .XSynchronize s
  let s := call .JXSetErrorHandler s
  let s := { call .XUniqueContext s with clientContext := env.XUniqueContext 0 }
  let s := { call .XUniqueContext s with frameContext := env.XUniqueContext 1 }
  let s := call (.JXChangeWindowAttributes s.rootWindow CWEventMask rootEventMask) s
  let s := signal .SIGTERM .HandleExit s
  let s := signal .SIGINT .HandleExit s
  let s := signal .SIGHUP .HandleExit s
  let s :=
    if env.USE_SHAPE then
      let s := { call .JXShapeQueryExtension s with
                 haveShape := env.JXShapeQueryExtension.1,
                 shapeEvent := env.JXShapeQueryExtension.2 }
      if s.haveShape then call (.Debug "shape extension enabled") s
      else call (.Debug "shape extension disabled") s
    else s
  .ret { s with initializing := false }

/-- `CloseConnection` (main.c 257-260). -/
def CloseConnection (s : State σ) : State σ :=
  s |> call .JXFlush |> call .JXCloseDisplay

/-- `ShutdownConnection` (main.c 264-266). -/
def ShutdownConnection (s : State σ) : State σ :=
  CloseConnection s

/-- `SendRestart` (main.c 434-450). -/
def SendRestart (env : Env σ) (s : State σ) : Result σ :=
  (OpenConnection env s).bind fun s =>
  let event := XEvent.zero
  let event := { event with type := ClientMessage }
  let event := { event with window := s.rootWindow }
  let s := call (.JXInternAtom "_JWM_RESTART") s
  let event := { event with message_type := env.JXInternAtom "_JWM_RESTART" }
  let event := { event with format := 32 }
  let s := call (.JXSendEvent s.rootWindow false SubstructureRedirectMask event) s
  .ret (CloseConnection s)

/-- `SendExit` (main.c 455-470). -/
def SendExit (env : Env σ) (s : State σ) : Result σ :=
  (OpenConnection env s).bind fun s =>
  let event := XEvent.zero
  let event := { event with type := ClientMessage }
  let event := { event with window := s.rootWindow }
  let s := call (.JXInternAtom "_JWM_EXIT") s
  let event := { event with message_type := env.JXInternAtom "_JWM_EXIT" }
  let event := { event with format := 32 }
  let s := call (.JXSendEvent s.rootWindow false SubstructureRedirectMask event) s
  .ret (CloseConnection s)

/-- The `for` loop of `main` over the arguments that are still to be read
(main.c 113-136). -/
def argLoop (env : Env σ) : List String → State σ → Result σ
  | [], s => .ret s
  | a :: rest, s =>
    if a = "-v" then DoExit env 0 (call .DisplayAbout s)
    else if a = "-h" then DoExit env 0 (call .DisplayHelp s)
    else if a = "-p" then DoExit env 0 (ParseConfig env (Initialize env s))
    else if a = "-restart" then (SendRestart env s).bind (DoExit env 0)
    else if a = "-exit" then (SendExit env s).bind (DoExit env 0)
    else
      match rest with
      | name :: rest' =>
        if a = "-display" then argLoop env rest' { s with displayString := some name }
        else DoExit env 1 (call .DisplayUsage s)
      | [] => DoExit env 1 (call .DisplayUsage s)

/-- The body of the `do ... while` of `main` up to the return of `EventLoop`
(main.c 140-145). -/
def enterCycle (env : Env σ) (s : State σ) : Result σ :=
  let s := { s with ctl := { s.ctl with shouldExit := false } }
  let s := { s with ctl := { s.ctl with shouldRestart := false } }
  let s := Initialize env s
  let s := ParseConfig env s
  let s := Startup env s
  EventLoop env s

/-- The rest of the body of the `do ... while` of `main` (main.c 146-147). -/
def leaveCycle (env : Env σ) (s : State σ) : State σ :=
  Destroy env (Shutdown env s)

/-- The `do ... while(shouldRestart)` of `main` (main.c 139-148), for at most
`fuel` cycles. -/
def restartLoop (env : Env σ) : Nat → State σ → Result σ
  | 0, s => .timeout s
  | fuel + 1, s =>
    (enterCycle env s).bind fun s =>
    let s := leaveCycle env s
    if s.ctl.shouldRestart then restartLoop env fuel s else .ret s

/-- The end of `main`, from `ShutdownConnection()` on (main.c 149-157). -/
def finalExit (env : Env σ) (s : State σ) : Result σ :=
  let s := ShutdownConnection s
  match s.ctl.exitCommand with
  | some cmd =>
    let s := call (.execl env.SHELL_NAME [env.SHELL_NAME, "-c", cmd]) s
    if env.execl env.SHELL_NAME [env.SHELL_NAME, "-c", cmd] then .exec s
    else DoExit env 1 (call (.Warning ("exec failed: (" ++ env.SHELL_NAME ++ ") " ++ cmd)) s)
  | none => DoExit env 0 s

/-- The start of `main`: `StartDebug()` and the default configuration path
(main.c 101-111). -/
def mainInit (env : Env σ) (sub : σ) (events : List XEvent) : State σ :=
  let s := call .StartDebug (State.init sub events)
  match env.HOME with
  | some temp => { s with configPath := some (temp ++ CONFIG_FILE) }
  | none => { s with configPath := some CONFIG_FILE }

/-- `main` (main.c 97-162), run with the arguments `argv` (the program name
first), the subsystem state `sub` and the events `events` that the server
will deliver. -/
def main (env : Env σ) (fuel : Nat) (argv : List String) (sub : σ)
    (events : List XEvent) : Result σ :=
  (argLoop env (argv.drop 1) (mainInit env sub events)).bind fun s =>
  (StartupConnection env s).bind fun s =>
  (restartLoop env fuel s).bind fun s =>
  finalExit env s

/-! ## The calls each function makes, and the effect of a phase -/

/-- The order of the hooks in `Initialize` and in `Destroy`. -/
def alphabeticalOrder : List Subsystem :=
  [.Borders, .Clients, .Clock, .Colors, .Commands, .Cursors, .Desktops, .Dialogs, .Dock,
   .Fonts, .Groups, .Hints, .Icons, .Keys, .Outline, .Pager, .Placement, .Popup, .RootMenu,
   .Screens, .Swallow, .TaskBar, .Timing, .Tray, .TrayButtons]

/-- The order of the hooks in `Startup`. -/
def startupOrder : List Subsystem :=
  [.Commands, .Screens, .Groups, .Colors, .Icons, .Fonts, .Cursors, .Outline, .Pager,
   .Swallow, .Clock, .TaskBar, .TrayButtons, .Dock, .Tray, .Keys, .Desktops, .Hints,
   .Borders, .Clients, .Placement, .Timing, .Dialogs, .Popup, .RootMenu]

/-- The order of the hooks in `Shutdown`. -/
def shutdownOrder : List Subsystem :=
  [.Outline, .Dialogs, .Popup, .Keys, .Pager, .RootMenu, .Dock, .Tray, .TrayButtons,
   .TaskBar, .Swallow, .Clock, .Borders, .Clients, .Icons, .Cursors, .Fonts, .Colors,
   .Groups, .Desktops, .Placement, .Hints, .Timing, .Screens, .Commands]

/-- The subsystems of a list that are compiled in. -/
def compiledIn (disableConfirm : Bool) (order : List Subsystem) : List Subsystem :=
  order.filter fun k => !(disableConfirm && k == .Dialogs)

/-- The hook calls of a phase over a list of subsystems. -/
def hookCalls (disableConfirm : Bool) (p : Phase) (order : List Subsystem) : List Call :=
  (compiledIn disableConfirm order).map (Call.hook p)

/-- The calls of `Initialize`. -/
def InitializeCalls (disableConfirm : Bool) : List Call :=
  hookCalls disableConfirm .Initialize alphabeticalOrder

/-- The calls of `Startup` when the root window is `root`. -/
def StartupCalls (disableConfirm : Bool) (root : Nat) : List Call :=
  hookCalls disableConfirm .Startup startupOrder
    ++ [.SetDefaultCursor root, .ReadCurrentDesktop, .JXFlush, .RestackClients]

/-- The calls of `Shutdown`. -/
def ShutdownCalls (disableConfirm : Bool) : List Call :=
  hookCalls disableConfirm .Shutdown shutdownOrder

/-- The calls of `Destroy`. -/
def DestroyCalls (disableConfirm : Bool) : List Call :=
  hookCalls disableConfirm .Destroy alphabeticalOrder

/-- The calls of an `EventLoop` that receives exactly the events `evs`. -/
def EventLoopCalls (evs : List XEvent) : List Call :=
  evs.flatMap fun e => [.WaitForEvent, .ProcessEvent e]

/-- The effect of a list of hooks of one phase on the subsystem state. -/
def hooksSub (env : Env σ) (p : Phase) (ks : List Subsystem) (x : σ) : σ :=
  ks.foldl (fun x k => env.hook p k x) x

/-- The effect of a whole phase on the subsystem state. -/
def phaseSub (env : Env σ) (p : Phase) (order : List Subsystem) : σ → σ :=
  hooksSub env p (compiledIn env.DISABLE_CONFIRM order)

/-- A list of hooks of one phase, called one after the other. -/
def runHooks (env : Env σ) (p : Phase) (ks : List Subsystem) (s : State σ) : State σ :=
  ks.foldl (fun s k => hook env p k s) s

/-- A change of the subsystem state together with some logged calls, all other
variables being left alone. -/
def State.step (s : State σ) (g : σ → σ) (l : List Call) : State σ :=
  { s with ctl := { s.ctl with sub := g s.ctl.sub }, trace := s.trace ++ l }

/-- The events `evs` dispatched one after the other. -/
def dispatchAll (env : Env σ) (evs : List XEvent) (c : Control σ) : Control σ :=
  evs.foldl (fun c e => env.ProcessEvent e c) c

/-- The three calls of `signal` that `HandleExit` makes. -/
def HandleExitCalls : List Call :=
  [.signal .SIGTERM .HandleExit, .signal .SIGINT .HandleExit, .signal .SIGHUP .HandleExit]

/-- A stop request: what `HandleExit` does to the shared variables. -/
def requestStop (c : Control σ) : Control σ :=
  { c with shouldExit := true }

/-- The default configuration path that `main` builds from `HOME`. -/
def defaultConfigPath (home : Option String) : String :=
  match home with
  | some temp => temp ++ CONFIG_FILE
  | none => CONFIG_FILE

/-- The calls of `Release` that `DoExit` makes. -/
def releaseCalls (configPath exitCommand : Option String) : List Call :=
  configPath.toList.map Call.Release ++ exitCommand.toList.map Call.Release

/-- The calls of `DoExit`. -/
def DoExitCalls (disableConfirm : Bool) (configPath exitCommand : Option String) : List Call :=
  DestroyCalls disableConfirm ++ releaseCalls configPath exitCommand ++ [.StopDebug]

/-- The arguments `-display n1 -display n2 ...`. -/
def displayPairs (names : List String) : List String :=
  names.flatMap fun name => ["-display", name]

/-- What `SendRestart` and `SendExit` have in common: they differ in the name
of the atom only. -/
def sendControl (env : Env σ) (atomName : String) (s : State σ) : Result σ :=
  (OpenConnection env s).bind fun s =>
  let s := call (.JXInternAtom atomName) s
  let event : XEvent :=
    { type := ClientMessage, window := s.rootWindow,
      message_type := env.JXInternAtom atomName, format := 32, data := [0, 0, 0, 0, 0] }
  let s := call (.JXSendEvent s.rootWindow false SubstructureRedirectMask event) s
  .ret (CloseConnection s)

/-- The client message that `SendRestart` and `SendExit` build for the root
window `root` and the atom `atom`. -/
def controlMessage (root atom : Nat) : XEvent :=
  { type := ClientMessage, window := root, message_type := atom, format := 32,
    data := [0, 0, 0, 0, 0] }

/-- The calls of `SendRestart` and `SendExit` on a connection that opened
with root window `root`. -/
def sendCalls (target : Option String) (atomName : String) (root atom : Nat) : List Call :=
  [.JXOpenDisplay target, .JXInternAtom atomName,
   .JXSendEvent root false SubstructureRedirectMask (controlMessage root atom),
   .JXFlush, .JXCloseDisplay]

/-- The message that `OpenConnection` prints when the connection fails. -/
def openFailureMessage (target : Option String) : String :=
  match target with
  | some name => "error: could not open display " ++ name ++ "\n"
  | none => "error: could not open display\n"

/-- Calls that open or close a connection to the server. -/
def Call.isConnection : Call → Bool
  | .JXOpenDisplay _ => true
  | .JXCloseDisplay => true
  | _ => false

/-- Calls that open a connection to the server. -/
def Call.isOpen : Call → Bool
  | .JXOpenDisplay _ => true
  | _ => false

/-- The calls of a `StartupConnection` that opens the connection with root
window `root`. -/
def StartupConnectionCalls (useShape haveShape : Bool) (target : Option String) (root : Nat) :
    List Call :=
  [.JXOpenDisplay target, .XSynchronize, .JXSetErrorHandler, .XUniqueContext, .XUniqueContext,
   .JXChangeWindowAttributes root CWEventMask rootEventMask,
   .signal .SIGTERM .HandleExit, .signal .SIGINT .HandleExit, .signal .SIGHUP .HandleExit]
  ++ (if useShape then
        [.JXShapeQueryExtension,
         .Debug (if haveShape then "shape extension enabled" else "shape extension disabled")]
      else [])

/-- The calls of `ShutdownConnection`. -/
def ShutdownConnectionCalls : List Call :=
  [.JXFlush, .JXCloseDisplay]

/-- The calls of one restart cycle whose event loop receives the events
`used`: `Initialize`, `ParseConfig`, `Startup`, `EventLoop`, `Shutdown`,
`Destroy`. -/
def cycleCalls (disableConfirm : Bool) (configPath : Option String) (root : Nat)
    (used : List XEvent) : List Call :=
  InitializeCalls disableConfirm ++ [.ParseConfig configPath] ++ StartupCalls disableConfirm root
    ++ EventLoopCalls used ++ ShutdownCalls disableConfirm ++ DestroyCalls disableConfirm

/-- The calls of `main` after `ShutdownConnection`, with the exit command
`exitCommand`. -/
def afterConnectionCalls {σ : Type} (env : Env σ) (configPath exitCommand : Option String) :
    List Call :=
  match exitCommand with
  | none => DoExitCalls env.DISABLE_CONFIRM configPath none
  | some cmd =>
    .execl env.SHELL_NAME [env.SHELL_NAME, "-c", cmd]
      :: (if env.execl env.SHELL_NAME [env.SHELL_NAME, "-c", cmd] then []
          else .Warning ("exec failed: (" ++ env.SHELL_NAME ++ ") " ++ cmd)
            :: DoExitCalls env.DISABLE_CONFIRM configPath (some cmd))

/-- The event loops of the first `n` cycles started from `s` return with
`shouldRestart` true, and the event loop of the next cycle returns with
`shouldRestart` false. -/
def RestartsThenStops (env : Env σ) : Nat → State σ → Bool
  | 0, s =>
    match enterCycle env s with
    | .ret s' => !s'.ctl.shouldRestart
    | _ => false
  | n + 1, s =>
    match enterCycle env s with
    | .ret s' => s'.ctl.shouldRestart && RestartsThenStops env n (leaveCycle env s')
    | _ => false

/-- The state in which the event loop of a cycle is entered. -/
def beforeEventLoop (env : Env σ) (s : State σ) : State σ :=
  { s with
    ctl := { shouldExit := false, shouldRestart := false, exitCommand := s.ctl.exitCommand,
             sub := phaseSub env .Startup startupOrder
               (env.ParseConfig s.configPath
                 (phaseSub env .Initialize alphabeticalOrder s.ctl.sub)) },
    trace := s.trace ++ (InitializeCalls env.DISABLE_CONFIRM ++ [.ParseConfig s.configPath]
      ++ StartupCalls env.DISABLE_CONFIRM s.rootWindow) }

/-- The members of a list that come after the first occurrence of `k`. -/
def laterIn (k : Subsystem) : List Subsystem → List Subsystem
  | [] => []
  | j :: rest => if j = k then rest else laterIn k rest

/-- The subsystems whose Destroy hook runs after that of `k`. -/
def destroyedAfter (disableConfirm : Bool) (k : Subsystem) : List Subsystem :=
  laterIn k (compiledIn disableConfirm alphabeticalOrder)

/-! ## Sample environments and events -/

/-- Hooks over two counters kept by the border and the client subsystems:
`DestroyBorders` copies the client counter into the border counter,
`DestroyClients` clears the client counter, and every other hook does
nothing. -/
def copyingEnv : Env (Subsystem → Nat) :=
  { DISABLE_CONFIRM := false, USE_SHAPE := false, SHELL_NAME := "/bin/sh", HOME := none,
    hook := fun p k x =>
      match p, k with
      | .Destroy, .Borders => Function.update x .Borders (x .Clients)
      | .Destroy, .Clients => Function.update x .Clients 0
      | _, _ => x,
    ParseConfig := fun _ x => x,
    ProcessEvent := fun _ c => c,
    JXOpenDisplay := fun _ => none,
    XUniqueContext := fun n => n,
    JXShapeQueryExtension := (false, 0),
    JXInternAtom := fun _ => 0,
    execl := fun _ _ => false }

/-- Hooks over two counters kept by the border and the client subsystems:
`DestroyBorders` clears the border counter, `DestroyClients` copies the
border counter, already cleared, into the client counter, and every other
hook does nothing. -/
def backwardEnv : Env (Subsystem → Nat) :=
  { copyingEnv with
    hook := fun p k x =>
      match p, k with
      | .Destroy, .Borders => Function.update x .Borders 0
      | .Destroy, .Clients => Function.update x .Clients (x .Borders)
      | _, _ => x }

/-- A server with one screen. -/
def demoDisplay : Display :=
  { screen := 0, root := 1, width := 1024, height := 768, depth := 24, colormap := 2,
    visual := 3, maxCmaps := 1 }

/-- An environment with no subsystem state, a reachable server, a shell that
cannot be executed, and a dispatcher that requests a restart on message type
1, an exit on message type 2, and an exit followed by the command `xterm` on
message type 3. -/
def demoEnv : Env Unit :=
  { DISABLE_CONFIRM := false, USE_SHAPE := true, SHELL_NAME := "/bin/sh",
    HOME := some "/home/user",
    hook := fun _ _ x => x,
    ParseConfig := fun _ x => x,
    ProcessEvent := fun e c =>
      if e.message_type = 1 then { c with shouldRestart := true, shouldExit := true }
      else if e.message_type = 2 then { c with shouldExit := true }
      else if e.message_type = 3 then
        { c with exitCommand := some "xterm", shouldExit := true }
      else c,
    JXOpenDisplay := fun _ => some demoDisplay,
    XUniqueContext := fun n => n,
    JXShapeQueryExtension := (true, 64),
    JXInternAtom := fun name =>
      if name = "_JWM_RESTART" then 1 else if name = "_JWM_EXIT" then 2 else 0,
    execl := fun _ _ => false }

/-- The environment `demoEnv` with no server to connect to. -/
def offlineEnv : Env Unit :=
  { demoEnv with JXOpenDisplay := fun _ => none }

/-- An exit request as `demoEnv` understands it. -/
def exitRequest : XEvent :=
  { XEvent.zero with type := ClientMessage, message_type := 2, format := 32 }

/-- A restart request as `demoEnv` understands it. -/
def restartRequest : XEvent :=
  { XEvent.zero with type := ClientMessage, message_type := 1, format := 32 }

/-- An exit request that names the command `xterm`, as `demoEnv` understands
it. -/
def exitWithCommand : XEvent :=
  { XEvent.zero with type := ClientMessage, message_type := 3, format := 32 }

end Definitions

section Theorems

variable {σ : Type}

/-! ## Lemmas on the phases -/

theorem step_step (s : State σ) (g g' : σ → σ) (l l' : List Call) :
    (s.step g l).step g' l' = s.step (g' ∘ g) (l ++ l') := by
  simp [State.step, List.append_assoc]

theorem hook_eq_step (env : Env σ) (p : Phase) (k : Subsystem) (s : State σ) :
    hook env p k s = s.step (env.hook p k) [.hook p k] := rfl

theorem runHooks_eq_step (env : Env σ) (p : Phase) (ks : List Subsystem) (s : State σ) :
    runHooks env p ks s = s.step (hooksSub env p ks) (ks.map (Call.hook p)) := by
  induction ks generalizing s with
  | nil => simp [runHooks, hooksSub, State.step]
  | cons k ks ih =>
    have h : runHooks env p (k :: ks) s = runHooks env p ks (hook env p k s) := rfl
    rw [h, ih, hook_eq_step, step_step]
    rfl

theorem Initialize_eq_runHooks (env : Env σ) (s : State σ) :
    Initialize env s
      = runHooks env .Initialize (compiledIn env.DISABLE_CONFIRM alphabeticalOrder) s := by
  unfold Initialize hookDialogs
  cases env.DISABLE_CONFIRM <;> rfl

theorem Destroy_eq_runHooks (env : Env σ) (s : State σ) :
    Destroy env s
      = runHooks env .Destroy (compiledIn env.DISABLE_CONFIRM alphabeticalOrder) s := by
  unfold Destroy hookDialogs
  cases env.DISABLE_CONFIRM <;> rfl

theorem Shutdown_eq_runHooks (env : Env σ) (s : State σ) :
    Shutdown env s
      = runHooks env .Shutdown (compiledIn env.DISABLE_CONFIRM shutdownOrder) s := by
  unfold Shutdown hookDialogs
  cases env.DISABLE_CONFIRM <;> rfl

theorem Initialize_eq_step (env : Env σ) (s : State σ) :
    Initialize env s
      = s.step (phaseSub env .Initialize alphabeticalOrder)
          (InitializeCalls env.DISABLE_CONFIRM) := by
  rw [Initialize_eq_runHooks, runHooks_eq_step]; rfl

theorem Destroy_eq_step (env : Env σ) (s : State σ) :
    Destroy env s
      = s.step (phaseSub env .Destroy alphabeticalOrder) (DestroyCalls env.DISABLE_CONFIRM) := by
  rw [Destroy_eq_runHooks, runHooks_eq_step]; rfl

theorem Shutdown_eq_step (env : Env σ) (s : State σ) :
    Shutdown env s
      = s.step (phaseSub env .Shutdown shutdownOrder) (ShutdownCalls env.DISABLE_CONFIRM) := by
  rw [Shutdown_eq_runHooks, runHooks_eq_step]; rfl

theorem Startup_eq_runHooks (env : Env σ) (s : State σ) :
    Startup env s
      = (runHooks env .Startup (compiledIn env.DISABLE_CONFIRM startupOrder) s).step id
          [.SetDefaultCursor s.rootWindow, .ReadCurrentDesktop, .JXFlush, .RestackClients] := by
  have h : ∀ t : State σ,
      (call .RestackClients (call .JXFlush (call .ReadCurrentDesktop
        (call (.SetDefaultCursor t.rootWindow) t))))
      = t.step id [.SetDefaultCursor t.rootWindow, .ReadCurrentDesktop, .JXFlush,
          .RestackClients] := by
    intro t; simp [call, State.step, List.append_assoc]
  have hr : ∀ ks, (runHooks env .Startup ks s).rootWindow = s.rootWindow := by
    intro ks; rw [runHooks_eq_step]; rfl
  rw [← hr, ← h]
  unfold Startup hookDialogs
  cases env.DISABLE_CONFIRM <;> rfl

theorem Startup_eq_step (env : Env σ) (s : State σ) :
    Startup env s
      = s.step (phaseSub env .Startup startupOrder)
          (StartupCalls env.DISABLE_CONFIRM s.rootWindow) := by
  rw [Startup_eq_runHooks, runHooks_eq_step, step_step]; rfl

theorem ParseConfig_eq_step (env : Env σ) (s : State σ) :
    ParseConfig env s = s.step (env.ParseConfig s.configPath) [.ParseConfig s.configPath] := rfl

/-! ## Order of the hooks within a phase -/

/-- C10: in every run of `Startup` each startup hook that is compiled in is
called exactly once, `StartupColors` comes before `StartupIcons`, and
`RestackClients` is the last call of the phase; in every run of `Shutdown`
each shutdown hook that is compiled in is called exactly once and
`ShutdownOutline` comes before `ShutdownDialogs`. -/
theorem Startup_Shutdown_hook_order (env : Env σ) (s : State σ) :
    (Startup env s).trace = s.trace ++ StartupCalls env.DISABLE_CONFIRM s.rootWindow
    ∧ (∀ k : Subsystem, (k = .Dialogs → env.DISABLE_CONFIRM = false) →
        (StartupCalls env.DISABLE_CONFIRM s.rootWindow).count (.hook .Startup k) = 1)
    ∧ (StartupCalls env.DISABLE_CONFIRM s.rootWindow).indexOf (.hook .Startup .Colors)
        < (StartupCalls env.DISABLE_CONFIRM s.rootWindow).indexOf (.hook .Startup .Icons)
    ∧ (StartupCalls env.DISABLE_CONFIRM s.rootWindow).indexOf (.hook .Startup .Icons)
        < (StartupCalls env.DISABLE_CONFIRM s.rootWindow).length
    ∧ (StartupCalls env.DISABLE_CONFIRM s.rootWindow).getLast? = some .RestackClients
    ∧ (StartupCalls env.DISABLE_CONFIRM s.rootWindow).count .RestackClients = 1
    ∧ (Shutdown env s).trace = s.trace ++ ShutdownCalls env.DISABLE_CONFIRM
    ∧ (∀ k : Subsystem, (k = .Dialogs → env.DISABLE_CONFIRM = false) →
        (ShutdownCalls env.DISABLE_CONFIRM).count (.hook .Shutdown k) = 1)
    ∧ (env.DISABLE_CONFIRM = false →
        (ShutdownCalls env.DISABLE_CONFIRM).indexOf (.hook .Shutdown .Outline)
          < (ShutdownCalls env.DISABLE_CONFIRM).indexOf (.hook .Shutdown .Dialogs)
        ∧ (ShutdownCalls env.DISABLE_CONFIRM).indexOf (.hook .Shutdown .Dialogs)
          < (ShutdownCalls env.DISABLE_CONFIRM).length) := by
  refine ⟨by rw [Startup_eq_step]; rfl, ?_, ?_, ?_, ?_, ?_, by rw [Shutdown_eq_step]; rfl,
    ?_, ?_⟩
  · intro k hk
    cases hdc : env.DISABLE_CONFIRM
    · cases k <;> rfl
    · cases k <;> first | rfl | (rw [hdc] at hk; exact absurd (hk rfl) (by decide))
  · cases env.DISABLE_CONFIRM <;> exact of_decide_eq_true rfl
  · cases env.DISABLE_CONFIRM <;> exact of_decide_eq_true rfl
  · cases env.DISABLE_CONFIRM <;> rfl
  · cases env.DISABLE_CONFIRM <;> rfl
  · intro k hk
    cases hdc : env.DISABLE_CONFIRM
    · cases k <;> rfl
    · cases k <;> first | rfl | (rw [hdc] at hk; exact absurd (hk rfl) (by decide))
  · intro hdc
    rw [hdc]
    decide

/-! ## The signal handler -/

/-- C3: `HandleExit` sets `shouldExit`, leaves `shouldRestart`, `initializing`,
the subsystem state and every connection fact as they were, calls nothing but
`signal` (once for each of SIGTERM, SIGINT and SIGHUP, installing itself), and
a second run changes no variable: it only logs the three `signal` calls again. -/
theorem HandleExit_sets_only_shouldExit (s : State σ) :
    (HandleExit s).ctl.shouldExit = true
    ∧ (HandleExit s).ctl.shouldRestart = s.ctl.shouldRestart
    ∧ (HandleExit s).initializing = s.initializing
    ∧ (HandleExit s).display = s.display
    ∧ (HandleExit s).rootWindow = s.rootWindow
    ∧ (HandleExit s).rootWidth = s.rootWidth
    ∧ (HandleExit s).rootHeight = s.rootHeight
    ∧ (HandleExit s).rootDepth = s.rootDepth
    ∧ (HandleExit s).rootColormap = s.rootColormap
    ∧ (HandleExit s).rootVisual = s.rootVisual
    ∧ (HandleExit s).colormapCount = s.colormapCount
    ∧ (HandleExit s).ctl.sub = s.ctl.sub
    ∧ (HandleExit s).trace = s.trace ++ HandleExitCalls
    ∧ (HandleExit s).onSIGTERM = .HandleExit
    ∧ (HandleExit s).onSIGINT = .HandleExit
    ∧ (HandleExit s).onSIGHUP = .HandleExit
    ∧ HandleExit s
        = { s with ctl := { s.ctl with shouldExit := true },
                   onSIGTERM := .HandleExit, onSIGINT := .HandleExit, onSIGHUP := .HandleExit,
                   trace := s.trace ++ HandleExitCalls }
    ∧ HandleExit (HandleExit s)
        = { HandleExit s with trace := (HandleExit s).trace ++ HandleExitCalls } := by
  have h : HandleExit s
        = { s with ctl := { s.ctl with shouldExit := true },
                   onSIGTERM := .HandleExit, onSIGINT := .HandleExit, onSIGHUP := .HandleExit,
                   trace := s.trace ++ HandleExitCalls } := by
    simp [HandleExit, signal, call, HandleExitCalls, List.append_assoc]
  have h2 : HandleExit (HandleExit s)
        = { HandleExit s with trace := (HandleExit s).trace ++ HandleExitCalls } := by
    simp [HandleExit, signal, call, HandleExitCalls, List.append_assoc]
  refine ⟨?_, ?_, ?_, ?_, ?_, ?_, ?_, ?_, ?_, ?_, ?_, ?_, ?_, ?_, ?_, ?_, h, h2⟩ <;> rw [h]

/-! ## Running `Destroy` twice -/

/-- C9 (as stated, refuted): the hooks of `copyingEnv` are idempotent and each
changes only the component of its own subsystem, and yet a second `Destroy`
changes the subsystem state that the first one left. -/
theorem Destroy_twice_differs :
    (∀ (k : Subsystem) (x : Subsystem → Nat),
        copyingEnv.hook .Destroy k (copyingEnv.hook .Destroy k x) = copyingEnv.hook .Destroy k x)
    ∧ (∀ (k j : Subsystem) (x : Subsystem → Nat), j ≠ k → copyingEnv.hook .Destroy k x j = x j)
    ∧ (Destroy copyingEnv (Destroy copyingEnv (State.init (fun _ => 1) []))).ctl.sub
        ≠ (Destroy copyingEnv (State.init (fun _ => 1) [])).ctl.sub := by
  refine ⟨?_, ?_, ?_⟩
  · intro k x
    cases k <;> first | rfl | (funext j; cases j <;> rfl)
  · intro k j x hjk
    cases k <;> first | rfl | (cases j <;> first | rfl | exact absurd rfl hjk)
  · intro h
    exact absurd (congrFun h .Borders) (by decide)

theorem laterIn_append_cons (k : Subsystem) (pre post : List Subsystem) (h : k ∉ pre) :
    laterIn k (pre ++ k :: post) = post := by
  induction pre with
  | nil => simp [laterIn]
  | cons j pre ih =>
    have hj : j ≠ k := fun e => h (by simp [e])
    have hk : k ∉ pre := fun e => h (by simp [e])
    simp [laterIn, hj, ih hk]

theorem hooksSub_append {σ : Type} (env : Env σ) (p : Phase) (l l' : List Subsystem) (x : σ) :
    hooksSub env p (l ++ l') x = hooksSub env p l' (hooksSub env p l x) := by
  simp [hooksSub, List.foldl_append]

theorem hooksSub_cons {σ : Type} (env : Env σ) (p : Phase) (k : Subsystem)
    (l : List Subsystem) (x : σ) :
    hooksSub env p (k :: l) x = hooksSub env p l (env.hook p k x) := rfl

/-- Hooks that write only their own component leave the components of the
subsystems outside the list alone. -/
theorem hooksSub_frame {τ : Subsystem → Type} (env : Env ((k : Subsystem) → τ k)) (p : Phase)
    (hown : ∀ k j x, j ≠ k → env.hook p k x j = x j)
    (ks : List Subsystem) (x : (k : Subsystem) → τ k) (j : Subsystem) (hj : j ∉ ks) :
    hooksSub env p ks x j = x j := by
  induction ks generalizing x with
  | nil => rfl
  | cons k ks ih =>
    have hjk : j ≠ k := fun e => hj (by simp [e])
    have hjks : j ∉ ks := fun e => hj (by simp [e])
    rw [hooksSub_cons, ih _ hjks, hown k j x hjk]

/-- A state that every hook of the list leaves alone is left alone by the
whole list. -/
theorem hooksSub_fixed {σ : Type} (env : Env σ) (p : Phase) (ks : List Subsystem) (z : σ)
    (h : ∀ k ∈ ks, env.hook p k z = z) : hooksSub env p ks z = z := by
  induction ks with
  | nil => rfl
  | cons k ks ih =>
    rw [hooksSub_cons, h k (by simp)]
    exact ih fun j hj => h j (by simp [hj])

/-- After a pass over a duplicate-free list of hooks that are idempotent,
write only their own component and do not read a component written later in
the list, every hook of the list leaves the state alone. -/
theorem hook_hooksSub_fixed {τ : Subsystem → Type} (env : Env ((k : Subsystem) → τ k))
    (p : Phase) (ks : List Subsystem) (hnd : ks.Nodup)
    (hidem : ∀ k x, env.hook p k (env.hook p k x) = env.hook p k x)
    (hown : ∀ k j x, j ≠ k → env.hook p k x j = x j)
    (hord : ∀ k x y, (∀ j, j ∉ laterIn k ks → x j = y j) → env.hook p k x k = env.hook p k y k)
    (x : (k : Subsystem) → τ k) (k : Subsystem) (hk : k ∈ ks) :
    env.hook p k (hooksSub env p ks x) = hooksSub env p ks x := by
  obtain ⟨pre, post, hsplit⟩ := List.append_of_mem hk
  have hnd' : (pre ++ k :: post).Nodup := hsplit ▸ hnd
  have hkpre : k ∉ pre := fun e =>
    (List.nodup_append.1 hnd').2.2 e (by simp)
  have hkpost : k ∉ post := (List.nodup_cons.1 (List.nodup_append.1 hnd').2.1).1
  have hlater : laterIn k ks = post := by rw [hsplit]; exact laterIn_append_cons k pre post hkpre
  have hz : hooksSub env p ks x
      = hooksSub env p post (env.hook p k (hooksSub env p pre x)) := by
    rw [hsplit, hooksSub_append, hooksSub_cons]
  funext j
  by_cases hjk : j = k
  · subst hjk
    rw [hz]
    have hagree : ∀ i, i ∉ laterIn j ks →
        hooksSub env p post (env.hook p j (hooksSub env p pre x)) i
          = env.hook p j (hooksSub env p pre x) i := by
      intro i hi
      rw [hlater] at hi
      exact hooksSub_frame env p hown post _ i hi
    rw [hord j _ _ hagree, hidem, hooksSub_frame env p hown post _ j hkpost]
  · exact hown k j _ hjk

theorem compiledIn_alphabeticalOrder_nodup (dc : Bool) :
    (compiledIn dc alphabeticalOrder).Nodup := by
  cases dc <;> decide

/-- C9 (amended): when every Destroy hook is idempotent, changes only the
component of its own subsystem, and gives a result that does not depend on
the component of a subsystem destroyed after it, a second `Destroy` changes
no variable (it only logs the hook calls again); so Shutdown, Destroy,
Destroy leaves the variables that Shutdown, Destroy leaves. -/
theorem Destroy_idempotent_of_no_later_reads {τ : Subsystem → Type}
    (env : Env ((k : Subsystem) → τ k))
    (hidem : ∀ k x, env.hook .Destroy k (env.hook .Destroy k x) = env.hook .Destroy k x)
    (hown : ∀ k j x, j ≠ k → env.hook .Destroy k x j = x j)
    (hord : ∀ k x y, (∀ j, j ∉ destroyedAfter env.DISABLE_CONFIRM k → x j = y j) →
      env.hook .Destroy k x k = env.hook .Destroy k y k)
    (s : State ((k : Subsystem) → τ k)) :
    Destroy env (Destroy env s)
      = { Destroy env s with
          trace := (Destroy env s).trace ++ DestroyCalls env.DISABLE_CONFIRM }
    ∧ Destroy env (Destroy env (Shutdown env s))
      = { Destroy env (Shutdown env s) with
          trace := (Destroy env (Shutdown env s)).trace ++ DestroyCalls env.DISABLE_CONFIRM } := by
  have hg : ∀ x, phaseSub env .Destroy alphabeticalOrder
      (phaseSub env .Destroy alphabeticalOrder x) = phaseSub env .Destroy alphabeticalOrder x := by
    intro x
    unfold phaseSub
    exact hooksSub_fixed env .Destroy _ _ fun k hk =>
      hook_hooksSub_fixed env .Destroy _ (compiledIn_alphabeticalOrder_nodup _) hidem hown
        hord x k hk
  have key : ∀ t : State ((k : Subsystem) → τ k),
      Destroy env (Destroy env t)
        = { Destroy env t with
            trace := (Destroy env t).trace ++ DestroyCalls env.DISABLE_CONFIRM } := by
    intro t
    rw [Destroy_eq_step, Destroy_eq_step]
    simp [State.step, hg]
  exact ⟨key s, key (Shutdown env s)⟩

/-- Witness for C9 (amended): in `backwardEnv` the client hook reads the
border counter, which is destroyed before it. -/
theorem Destroy_idempotent_of_no_later_reads_witness :
    backwardEnv.hook .Destroy .Clients (fun _ => 1) .Clients = 1
    ∧ Destroy backwardEnv (Destroy backwardEnv (State.init (fun _ => 1) []))
      = { Destroy backwardEnv (State.init (fun _ => 1) []) with
          trace := (Destroy backwardEnv (State.init (fun _ => 1) [])).trace
            ++ DestroyCalls false } :=
  ⟨rfl,
   (Destroy_idempotent_of_no_later_reads (τ := fun _ => Nat) backwardEnv
    (by intro k x; cases k <;> first | rfl | (funext j; cases j <;> rfl))
    (by intro k j x hjk; cases k <;> first | rfl | (cases j <;> first | rfl | exact absurd rfl hjk))
    (by
      intro k x y h
      cases k
      case Borders => rfl
      case Clients => exact h .Borders (by decide)
      all_goals exact h _ (by decide))
    (State.init (fun _ => 1) [])).1⟩

/-! ## The event loop -/

theorem EventLoop_go_of_shouldExit (env : Env σ) (evs : List XEvent) (s : State σ)
    (h : s.ctl.shouldExit = true) : EventLoop.go env evs s = .ret s := by
  cases evs <;> simp [EventLoop.go, h]

theorem EventLoop_go_cons (env : Env σ) (e : XEvent) (rest : List XEvent) (s : State σ)
    (h : s.ctl.shouldExit = false) :
    EventLoop.go env (e :: rest) s
      = EventLoop.go env rest (ProcessEvent env e (WaitForEvent rest s)) := by
  simp [EventLoop.go, h]

theorem EventLoopCalls_cons (e : XEvent) (l : List XEvent) :
    EventLoopCalls (e :: l) = [.WaitForEvent, .ProcessEvent e] ++ EventLoopCalls l := by
  simp [EventLoopCalls, List.flatMap_cons]

theorem EventLoop_go_stops (env : Env σ) (pre : List XEvent) (e : XEvent) (post : List XEvent)
    (s : State σ)
    (hpre : ∀ p, p <+: pre → (dispatchAll env p s.ctl).shouldExit = false)
    (he : (dispatchAll env (pre ++ [e]) s.ctl).shouldExit = true) :
    EventLoop.go env (pre ++ e :: post) s
      = .ret { s with ctl := dispatchAll env (pre ++ [e]) s.ctl, pending := post,
                      trace := s.trace ++ EventLoopCalls (pre ++ [e]) } := by
  induction pre generalizing s with
  | nil =>
    have h0 : s.ctl.shouldExit = false := hpre [] (List.prefix_refl _)
    have h1 : (env.ProcessEvent e s.ctl).shouldExit = true := he
    rw [List.nil_append, EventLoop_go_cons _ _ _ _ h0]
    rw [EventLoop_go_of_shouldExit _ _ _ (by simpa [ProcessEvent, WaitForEvent, call] using h1)]
    simp [ProcessEvent, WaitForEvent, call, dispatchAll, EventLoopCalls, List.append_assoc]
  | cons a pre ih =>
    have h0 : s.ctl.shouldExit = false := hpre [] List.nil_prefix
    rw [List.cons_append, EventLoop_go_cons _ _ _ _ h0]
    rw [ih]
    · simp [ProcessEvent, WaitForEvent, call, dispatchAll, EventLoopCalls_cons,
        List.append_assoc]
    · intro p hp
      have := hpre (a :: p) ((List.cons_prefix_cons).2 ⟨rfl, hp⟩)
      simpa [ProcessEvent, WaitForEvent, call, dispatchAll] using this
    · simpa [ProcessEvent, WaitForEvent, call, dispatchAll] using he

theorem EventLoop_go_blocks (env : Env σ) (evs : List XEvent) (s : State σ)
    (hall : ∀ p, p <+: evs → (dispatchAll env p s.ctl).shouldExit = false) :
    EventLoop.go env evs s
      = .block { s with ctl := dispatchAll env evs s.ctl,
                        pending := if evs = [] then s.pending else [],
                        trace := s.trace ++ EventLoopCalls evs ++ [.WaitForEvent] } := by
  induction evs generalizing s with
  | nil =>
    have h0 : s.ctl.shouldExit = false := hall [] (List.prefix_refl _)
    simp [EventLoop.go, h0, call, dispatchAll, EventLoopCalls]
  | cons a evs ih =>
    have h0 : s.ctl.shouldExit = false := hall [] List.nil_prefix
    rw [EventLoop_go_cons _ _ _ _ h0]
    rw [ih]
    · cases evs <;>
        simp [ProcessEvent, WaitForEvent, call, dispatchAll, EventLoopCalls_cons,
          List.append_assoc]
    · intro p hp
      have := hall (a :: p) ((List.cons_prefix_cons).2 ⟨rfl, hp⟩)
      simpa [ProcessEvent, WaitForEvent, call, dispatchAll] using this

/-- What a returning `EventLoop` has done: it consumed a prefix `used` of the
pending events and changed nothing but the shared variables, the pending
events and the log. -/
theorem EventLoop_go_ret (env : Env σ) (evs : List XEvent) (s s' : State σ)
    (hp : s.pending = evs) (h : EventLoop.go env evs s = .ret s') :
    ∃ used, s.pending = used ++ s'.pending
      ∧ s' = { s with ctl := dispatchAll env used s.ctl, pending := s'.pending,
                      trace := s.trace ++ EventLoopCalls used }
      ∧ s'.ctl.shouldExit = true := by
  induction evs generalizing s with
  | nil =>
    by_cases h0 : s.ctl.shouldExit = true
    · simp [EventLoop.go, h0] at h
      subst h
      exact ⟨[], by simp, by simp [dispatchAll, EventLoopCalls], h0⟩
    · simp [EventLoop.go, h0] at h
  | cons a evs ih =>
    by_cases h0 : s.ctl.shouldExit = true
    · simp [EventLoop.go, h0] at h
      subst h
      exact ⟨[], by simp, by simp [dispatchAll, EventLoopCalls], h0⟩
    · rw [EventLoop_go_cons _ _ _ _ (by simpa using h0)] at h
      obtain ⟨used, h1, h2, h3⟩ := ih (ProcessEvent env a (WaitForEvent evs s)) rfl h
      refine ⟨a :: used, ?_, ?_, h3⟩
      · rw [hp]
        simpa [ProcessEvent, WaitForEvent, call] using h1
      · rw [h2]
        simp [ProcessEvent, WaitForEvent, call, dispatchAll, EventLoopCalls_cons,
          List.append_assoc]

/-- C2: `EventLoop` waits for and dispatches the events in arrival order and
returns right after the first dispatch that leaves `shouldExit` true, with the
later events still pending; with `shouldExit` true on entry it returns at once
without waiting; a stop request raised in the middle of a dispatch does not
cut the dispatch short; with no dispatch leaving `shouldExit` true, the loop
dispatches every event and waits for more. -/
theorem EventLoop_returns_after_first_exit (env : Env σ) (s : State σ) :
    (s.ctl.shouldExit = true → EventLoop env s = .ret s)
    ∧ (∀ pre e post, s.pending = pre ++ e :: post →
        (∀ p, p <+: pre → (dispatchAll env p s.ctl).shouldExit = false) →
        (dispatchAll env (pre ++ [e]) s.ctl).shouldExit = true →
        EventLoop env s
          = .ret { s with ctl := dispatchAll env (pre ++ [e]) s.ctl, pending := post,
                          trace := s.trace ++ EventLoopCalls (pre ++ [e]) })
    ∧ (∀ e post (before after : Control σ → Control σ), s.pending = e :: post →
        s.ctl.shouldExit = false →
        env.ProcessEvent e = (fun c => after (requestStop (before c))) →
        (after (requestStop (before s.ctl))).shouldExit = true →
        EventLoop env s
          = .ret { s with ctl := after (requestStop (before s.ctl)), pending := post,
                          trace := s.trace ++ [.WaitForEvent, .ProcessEvent e] })
    ∧ ((∀ p, p <+: s.pending → (dispatchAll env p s.ctl).shouldExit = false) →
        EventLoop env s
          = .block { s with ctl := dispatchAll env s.pending s.ctl, pending := [],
                            trace := s.trace ++ EventLoopCalls s.pending ++ [.WaitForEvent] })
    ∧ (HandleExit s).ctl = requestStop s.ctl := by
  refine ⟨?_, ?_, ?_, ?_, rfl⟩
  · intro h
    exact EventLoop_go_of_shouldExit env _ s h
  · intro pre e post hp hpre he
    unfold EventLoop
    rw [hp]
    exact EventLoop_go_stops env pre e post s hpre he
  · intro e post before after hp h0 hdisp hstop
    unfold EventLoop
    rw [hp]
    have := EventLoop_go_stops env [] e post s
      (by intro p hp; rw [List.prefix_nil.1 hp]; exact h0)
      (by simpa [dispatchAll, hdisp] using hstop)
    simpa [dispatchAll, hdisp, EventLoopCalls] using this
  · intro hall
    unfold EventLoop
    rw [EventLoop_go_blocks env _ s hall]
    cases hp : s.pending <;> simp [hp]

/-- Witness for C2: an event that requests nothing, then an exit request,
then a restart request that stays pending. -/
theorem EventLoop_returns_after_first_exit_witness :
    EventLoop demoEnv (State.init () [XEvent.zero, exitRequest, restartRequest])
      = .ret { State.init () [XEvent.zero, exitRequest, restartRequest] with
               ctl := { shouldExit := true, shouldRestart := false, exitCommand := none,
                        sub := () },
               pending := [restartRequest],
               trace := [.WaitForEvent, .ProcessEvent XEvent.zero,
                         .WaitForEvent, .ProcessEvent exitRequest] } :=
  (EventLoop_returns_after_first_exit demoEnv
      (State.init () [XEvent.zero, exitRequest, restartRequest])).2.1
    [XEvent.zero] exitRequest [restartRequest] rfl
    (by
      intro p hp
      cases p with
      | nil => rfl
      | cons a p' =>
        obtain ⟨t, ht⟩ := hp
        simp only [List.cons_append, List.cons.injEq] at ht
        obtain ⟨rfl, ht⟩ := ht
        have hp' : p' = [] := (List.append_eq_nil.1 ht).1
        subst hp'
        rfl)
    rfl

/-! ## Leaving the process and reading the command line -/

theorem DoExit_eq (env : Env σ) (code : Int) (s : State σ) :
    DoExit env code s
      = .exit code
          { s with ctl := { s.ctl with exitCommand := none,
                                       sub := phaseSub env .Destroy alphabeticalOrder s.ctl.sub },
                   configPath := none,
                   trace := s.trace
                     ++ DoExitCalls env.DISABLE_CONFIRM s.configPath s.ctl.exitCommand } := by
  unfold DoExit
  rw [Destroy_eq_step]
  cases h1 : s.configPath <;> cases h2 : s.ctl.exitCommand <;>
    simp [State.step, h1, h2, call, DoExitCalls, releaseCalls, List.append_assoc]

theorem mainInit_eq (env : Env σ) (sub : σ) (events : List XEvent) :
    mainInit env sub events
      = { State.init sub events with configPath := some (defaultConfigPath env.HOME),
                                     trace := [.StartDebug] } := by
  unfold mainInit defaultConfigPath
  cases env.HOME <;> rfl

theorem argLoop_display (env : Env σ) (name : String) (rest : List String) (s : State σ) :
    argLoop env ("-display" :: name :: rest) s
      = argLoop env rest { s with displayString := some name } := by
  simp [argLoop]

theorem argLoop_displayPairs (env : Env σ) (names : List String) (rest : List String)
    (s : State σ) :
    argLoop env (displayPairs names ++ rest) s
      = argLoop env rest { s with displayString := (names.getLast?).or s.displayString } := by
  induction names generalizing s with
  | nil => simp [displayPairs]
  | cons n ns ih =>
    have h : displayPairs (n :: ns) ++ rest = "-display" :: n :: (displayPairs ns ++ rest) := by
      simp [displayPairs]
    rw [h, argLoop_display, ih]
    cases ns with
    | nil => simp
    | cons m ms =>
      cases hg : (m :: ms).getLast? with
      | none => simp at hg
      | some x => simp [hg, List.getLast?_cons_cons]

theorem argLoop_usage (env : Env σ) (a : String) (rest : List String) (s : State σ)
    (ha : a ∉ ["-v", "-h", "-p", "-restart", "-exit"]) (hd : a = "-display" → rest = []) :
    argLoop env (a :: rest) s = DoExit env 1 (call .DisplayUsage s) := by
  simp only [List.mem_cons, List.mem_singleton, List.not_mem_nil, or_false, not_or] at ha
  obtain ⟨h1, h2, h3, h4, h5⟩ := ha
  cases rest with
  | nil => simp [argLoop, h1, h2, h3, h4, h5]
  | cons r rs =>
    have h6 : a ≠ "-display" := fun h => by simpa using hd h
    simp [argLoop, h1, h2, h3, h4, h5, h6]

theorem OpenConnection_some (env : Env σ) (s : State σ) (d : Display)
    (h : env.JXOpenDisplay s.displayString = some d) :
    OpenConnection env s
      = .ret { s with display := some d, rootScreen := d.screen, rootWindow := d.root,
                      rootWidth := d.width, rootHeight := d.height, rootDepth := d.depth,
                      rootColormap := d.colormap, rootVisual := d.visual,
                      colormapCount := d.maxCmaps,
                      trace := s.trace ++ [.JXOpenDisplay s.displayString] } := by
  simp [OpenConnection, call, h]

theorem OpenConnection_none (env : Env σ) (s : State σ)
    (h : env.JXOpenDisplay s.displayString = none) :
    OpenConnection env s
      = DoExit env 1
          { s with display := none,
                   trace := s.trace ++ [.JXOpenDisplay s.displayString,
                     .printf (openFailureMessage s.displayString)] } := by
  cases hd : s.displayString <;> rw [hd] at h <;>
    simp [OpenConnection, call, h, hd, openFailureMessage, List.append_assoc]

theorem sendControl_some (env : Env σ) (atomName : String) (s : State σ) (d : Display)
    (h : env.JXOpenDisplay s.displayString = some d) :
    sendControl env atomName s
      = .ret { s with display := some d, rootScreen := d.screen, rootWindow := d.root,
                      rootWidth := d.width, rootHeight := d.height, rootDepth := d.depth,
                      rootColormap := d.colormap, rootVisual := d.visual,
                      colormapCount := d.maxCmaps,
                      trace := s.trace
                        ++ sendCalls s.displayString atomName d.root (env.JXInternAtom atomName) } := by
  unfold sendControl
  rw [OpenConnection_some env s d h]
  simp [Result.bind, CloseConnection, call, sendCalls, controlMessage, XEvent.zero,
    List.append_assoc]

theorem sendControl_none (env : Env σ) (atomName : String) (s : State σ)
    (h : env.JXOpenDisplay s.displayString = none) :
    sendControl env atomName s
      = DoExit env 1
          { s with display := none,
                   trace := s.trace ++ [.JXOpenDisplay s.displayString,
                     .printf (openFailureMessage s.displayString)] } := by
  unfold sendControl
  rw [OpenConnection_none env s h, DoExit_eq]
  rfl

theorem main_cons (env : Env σ) (fuel : Nat) (prog : String) (args : List String) (sub : σ)
    (events : List XEvent) :
    main env fuel (prog :: args) sub events
      = (argLoop env args
          { State.init sub events with configPath := some (defaultConfigPath env.HOME),
                                       trace := [.StartDebug] }).bind fun s =>
        (StartupConnection env s).bind fun s =>
        (restartLoop env fuel s).bind fun s => finalExit env s := by
  unfold main
  rw [mainInit_eq]
  rfl

theorem mem_hookCalls {dc : Bool} {p : Phase} {order : List Subsystem} {c : Call}
    (h : c ∈ hookCalls dc p order) : ∃ k, c = .hook p k := by
  unfold hookCalls at h
  obtain ⟨k, _, hk⟩ := List.mem_map.1 h
  exact ⟨k, hk.symm⟩

theorem filter_hookCalls (dc : Bool) (p : Phase) (order : List Subsystem) :
    (hookCalls dc p order).filter Call.isConnection = [] := by
  rw [List.filter_eq_nil_iff]
  intro c hc
  obtain ⟨k, rfl⟩ := mem_hookCalls hc
  simp [Call.isConnection]

theorem filter_DoExitCalls (dc : Bool) (cfg cmd : Option String) :
    (DoExitCalls dc cfg cmd).filter Call.isConnection = [] := by
  unfold DoExitCalls DestroyCalls
  rw [List.filter_append, List.filter_append, filter_hookCalls]
  cases cfg <;> cases cmd <;> simp [releaseCalls, Call.isConnection]

/-! ## Command-line modes -/

/-- C6: when the first argument outside the `-display <name>` pairs is none of
`-v`, `-h`, `-p`, `-restart`, `-exit` (a `-display` with nothing after it
included), `main` calls `DisplayUsage` and leaves through `DoExit(1)`: exit
status 1, no connection, and no call other than `StartDebug`, `DisplayUsage`
and those of `DoExit`. -/
theorem unknown_argument_prints_usage (env : Env σ) (fuel : Nat) (prog : String)
    (names : List String) (a : String) (rest : List String) (sub : σ) (events : List XEvent)
    (ha : a ∉ ["-v", "-h", "-p", "-restart", "-exit"]) (hd : a = "-display" → rest = []) :
    (main env fuel (prog :: (displayPairs names ++ a :: rest)) sub events).status = some 1
    ∧ (main env fuel (prog :: (displayPairs names ++ a :: rest)) sub events).state.trace
        = [.StartDebug, .DisplayUsage]
          ++ DoExitCalls env.DISABLE_CONFIRM (some (defaultConfigPath env.HOME)) none
    ∧ (main env fuel (prog :: (displayPairs names ++ a :: rest)) sub events).state.display
        = none
    ∧ (main env fuel (prog :: (displayPairs names ++ a :: rest)) sub events).state.pending
        = events := by
  rw [main_cons, argLoop_displayPairs, argLoop_usage env a rest _ ha hd, DoExit_eq]
  simp [Result.bind, Result.status, Result.state, call, State.init]

/-- Witness for C6: `jwm -display :0 -bogus`. -/
theorem unknown_argument_prints_usage_witness :
    "-bogus" ∉ ["-v", "-h", "-p", "-restart", "-exit"]
    ∧ (main demoEnv 1 ["jwm", "-display", ":0", "-bogus"] () []).status = some 1 :=
  ⟨by decide,
   (unknown_argument_prints_usage demoEnv 1 "jwm" [":0"] "-bogus" [] () [] (by decide)
      (fun _ => rfl)).1⟩

/-- C7 (amended): with `-p` as first argument, whatever follows it, `main`
runs `Initialize`, parses the default configuration path (`HOME` followed by
`/.jwmrc`), and leaves through `DoExit(0)`: exit status 0, no connection and
no event waited for. -/
theorem print_config_parses_default_path (env : Env σ) (fuel : Nat) (prog : String)
    (rest : List String) (sub : σ) (events : List XEvent) :
    (main env fuel (prog :: "-p" :: rest) sub events).status = some 0
    ∧ (main env fuel (prog :: "-p" :: rest) sub events).state.trace
        = [.StartDebug] ++ InitializeCalls env.DISABLE_CONFIRM
          ++ [.ParseConfig (some (defaultConfigPath env.HOME))]
          ++ DoExitCalls env.DISABLE_CONFIRM (some (defaultConfigPath env.HOME)) none
    ∧ (main env fuel (prog :: "-p" :: rest) sub events).state.display = none
    ∧ (main env fuel (prog :: "-p" :: rest) sub events).state.pending = events := by
  have h : ∀ s : State σ, argLoop env ("-p" :: rest) s
      = DoExit env 0 (ParseConfig env (Initialize env s)) := by
    intro s; cases rest <;> simp [argLoop]
  rw [main_cons, h, DoExit_eq, ParseConfig_eq_step, Initialize_eq_step]
  simp [Result.bind, Result.status, Result.state, State.step, State.init, List.append_assoc]

/-- C7 (as stated, refuted): `jwm -p /tmp/sample.cfg` with `HOME=/home/user`
parses `/home/user/.jwmrc` and never `/tmp/sample.cfg`. -/
theorem print_config_ignores_path_argument :
    Call.ParseConfig (some "/tmp/sample.cfg")
        ∉ (main demoEnv 1 ["jwm", "-p", "/tmp/sample.cfg"] () []).state.trace
    ∧ Call.ParseConfig (some "/home/user/.jwmrc")
        ∈ (main demoEnv 1 ["jwm", "-p", "/tmp/sample.cfg"] () []).state.trace := by
  decide

theorem SendRestart_eq (env : Env σ) (s : State σ) :
    SendRestart env s = sendControl env "_JWM_RESTART" s := rfl

theorem SendExit_eq (env : Env σ) (s : State σ) :
    SendExit env s = sendControl env "_JWM_EXIT" s := rfl

/-- How `main` treats a `-restart` or `-exit` argument reached with the
connection target `target`. -/
theorem argLoop_send (env : Env σ) (flag atomName : String) (rest : List String) (s : State σ)
    (hflag : (flag = "-restart" ∧ atomName = "_JWM_RESTART")
      ∨ (flag = "-exit" ∧ atomName = "_JWM_EXIT")) :
    argLoop env (flag :: rest) s = (sendControl env atomName s).bind (DoExit env 0) := by
  rcases hflag with ⟨rfl, rfl⟩ | ⟨rfl, rfl⟩ <;>
    cases rest <;> simp [argLoop, SendRestart_eq, SendExit_eq]

/-- C5 (amended): with `-restart` (respectively `-exit`) as first argument,
if the connection opens, `main` sends one client message to the root window
(type `ClientMessage`, message type the atom `_JWM_RESTART` (respectively
`_JWM_EXIT`), format 32, payload zero, not propagated, mask
substructure-redirect), closes the connection and leaves with status 0 after
the calls of `DoExit` only; if the connection does not open, it prints an
error, sends nothing and leaves with status 1. -/
theorem send_control_message (env : Env σ) (fuel : Nat) (prog flag atomName : String)
    (rest : List String) (sub : σ) (events : List XEvent)
    (hflag : (flag = "-restart" ∧ atomName = "_JWM_RESTART")
      ∨ (flag = "-exit" ∧ atomName = "_JWM_EXIT")) :
    (∀ d, env.JXOpenDisplay none = some d →
      (main env fuel (prog :: flag :: rest) sub events).status = some 0
      ∧ (main env fuel (prog :: flag :: rest) sub events).state.trace
          = [.StartDebug, .JXOpenDisplay none, .JXInternAtom atomName,
             .JXSendEvent d.root false SubstructureRedirectMask
               { type := ClientMessage, window := d.root,
                 message_type := env.JXInternAtom atomName, format := 32,
                 data := [0, 0, 0, 0, 0] },
             .JXFlush, .JXCloseDisplay]
            ++ DoExitCalls env.DISABLE_CONFIRM (some (defaultConfigPath env.HOME)) none)
    ∧ (env.JXOpenDisplay none = none →
      (main env fuel (prog :: flag :: rest) sub events).status = some 1
      ∧ (main env fuel (prog :: flag :: rest) sub events).state.trace
          = [.StartDebug, .JXOpenDisplay none, .printf "error: could not open display\n"]
            ++ DoExitCalls env.DISABLE_CONFIRM (some (defaultConfigPath env.HOME)) none) := by
  rw [main_cons, argLoop_send env flag atomName rest _ hflag]
  constructor
  · intro d hd
    rw [sendControl_some env atomName _ d hd]
    simp [Result.bind, DoExit_eq, Result.status, Result.state, State.init, sendCalls,
      controlMessage]
  · intro hd
    rw [sendControl_none env atomName _ hd]
    simp [Result.bind, DoExit_eq, Result.status, Result.state, State.init, openFailureMessage,
      List.append_assoc]

/-- Witness for C5 (amended): `jwm -restart` with a reachable server. -/
theorem send_control_message_witness :
    (main demoEnv 1 ["jwm", "-restart"] () []).status = some 0
    ∧ Call.JXSendEvent 1 false SubstructureRedirectMask
        { type := ClientMessage, window := 1, message_type := 1, format := 32,
          data := [0, 0, 0, 0, 0] }
        ∈ (main demoEnv 1 ["jwm", "-restart"] () []).state.trace := by
  have h := (send_control_message demoEnv 1 "jwm" "-restart" "_JWM_RESTART" [] () []
    (Or.inl ⟨rfl, rfl⟩)).1 demoDisplay rfl
  refine ⟨h.1, ?_⟩
  rw [h.2]
  decide

/-- C5 (as stated, refuted): `jwm -restart` with no server to connect to
leaves with status 1 and sends no message. -/
theorem send_restart_offline_exits_1 :
    (main offlineEnv 1 ["jwm", "-restart"] () []).status = some 1
    ∧ (main offlineEnv 1 ["jwm", "-restart"] () []).state.trace
        = [.StartDebug, .JXOpenDisplay none, .printf "error: could not open display\n"]
          ++ DoExitCalls false (some "/home/user/.jwmrc") none := by
  decide

theorem filter_isOpen_DoExitCalls (dc : Bool) (cfg cmd : Option String) :
    (DoExitCalls dc cfg cmd).filter Call.isOpen = [] := by
  rw [List.filter_eq_nil_iff]
  intro c hc
  unfold DoExitCalls DestroyCalls at hc
  rcases List.mem_append.1 hc with hc | hc
  · rcases List.mem_append.1 hc with hc | hc
    · obtain ⟨k, rfl⟩ := mem_hookCalls hc
      simp [Call.isOpen]
    · cases cfg <;> cases cmd <;> simp [releaseCalls] at hc <;>
        rcases hc with rfl | rfl <;> simp [Call.isOpen]
  · simp at hc
    subst hc
    simp [Call.isOpen]

/-- C4 (amended): when `-restart` or `-exit` comes after one or more
`-display <name>` pairs and nothing else, the one connection that `main`
opens is opened with the name of the last pair as its target. -/
theorem display_before_send_sets_target (env : Env σ) (fuel : Nat) (prog flag : String)
    (names rest : List String) (sub : σ) (events : List XEvent)
    (hflag : flag = "-restart" ∨ flag = "-exit") (hn : names ≠ []) :
    ((main env fuel (prog :: (displayPairs names ++ flag :: rest)) sub events).state.trace).filter
        Call.isOpen
      = [.JXOpenDisplay (some (names.getLast hn))] := by
  have hf : ∃ atomName, (flag = "-restart" ∧ atomName = "_JWM_RESTART")
      ∨ (flag = "-exit" ∧ atomName = "_JWM_EXIT") := by
    rcases hflag with h | h
    · exact ⟨_, Or.inl ⟨h, rfl⟩⟩
    · exact ⟨_, Or.inr ⟨h, rfl⟩⟩
  obtain ⟨atomName, hf⟩ := hf
  have hlast : names.getLast? = some (names.getLast hn) := List.getLast?_eq_getLast _ hn
  rw [main_cons, argLoop_displayPairs, argLoop_send env flag atomName rest _ hf, hlast]
  cases hd : env.JXOpenDisplay (some (names.getLast hn)) with
  | none =>
    rw [sendControl_none env atomName _ (by simpa using hd)]
    simp [Result.bind, DoExit_eq, Result.state, State.init, List.filter_append,
      filter_isOpen_DoExitCalls, Call.isOpen]
  | some d =>
    rw [sendControl_some env atomName _ d (by simpa using hd)]
    simp [Result.bind, DoExit_eq, Result.state, State.init, List.filter_append,
      filter_isOpen_DoExitCalls, Call.isOpen, sendCalls]

/-- Witness for C4 (amended): `jwm -display :1 -exit`. -/
theorem display_before_send_sets_target_witness :
    ((main demoEnv 1 ["jwm", "-display", ":1", "-exit"] () []).state.trace).filter Call.isOpen
      = [.JXOpenDisplay (some ":1")] :=
  display_before_send_sets_target demoEnv 1 "jwm" "-exit" [":1"] [] () [] (Or.inr rfl)
    (by decide)

/-- C4 (as stated, refuted): `jwm -restart -display :1` opens the connection
with no target name; the name `:1` is never read. -/
theorem display_after_send_is_ignored :
    ((main demoEnv 1 ["jwm", "-restart", "-display", ":1"] () []).state.trace).filter
        Call.isOpen
      = [.JXOpenDisplay none] := by
  decide

/-! ## The main mode: connection, restart cycles, final exit -/

theorem bind_assoc (r : Result σ) (f g : State σ → Result σ) :
    (r.bind f).bind g = r.bind fun s => (f s).bind g := by
  cases r <;> rfl

theorem bind_DoExit_ne_ret (env : Env σ) (r : Result σ) (code : Int) (s' : State σ) :
    r.bind (DoExit env code) ≠ .ret s' := by
  cases r <;> simp [Result.bind, DoExit_eq]

/-- The argument loop returns only after `-display` pairs, which change
nothing but `displayString`. -/
theorem argLoop_ret_aux (env : Env σ) (s' : State σ) :
    ∀ (n : Nat) (args : List String) (s : State σ), args.length ≤ n →
      argLoop env args s = .ret s' → s' = { s with displayString := s'.displayString } := by
  intro n
  induction n with
  | zero =>
    intro args s hlen h
    have : args = [] := List.length_eq_zero.1 (Nat.le_zero.1 hlen)
    subst this
    simp [argLoop] at h
    subst h
    rfl
  | succ n ih =>
    intro args s hlen h
    cases args with
    | nil =>
      simp [argLoop] at h
      subst h
      rfl
    | cons a rest =>
      by_cases hv : a = "-v"
      · subst hv; cases rest <;> simp [argLoop, DoExit_eq] at h
      by_cases hh : a = "-h"
      · subst hh; cases rest <;> simp [argLoop, DoExit_eq] at h
      by_cases hp : a = "-p"
      · subst hp; cases rest <;> simp [argLoop, DoExit_eq] at h
      by_cases hr : a = "-restart"
      · rw [argLoop_send env a "_JWM_RESTART" rest s (Or.inl ⟨hr, rfl⟩)] at h
        exact absurd h (bind_DoExit_ne_ret env _ 0 s')
      by_cases he : a = "-exit"
      · rw [argLoop_send env a "_JWM_EXIT" rest s (Or.inr ⟨he, rfl⟩)] at h
        exact absurd h (bind_DoExit_ne_ret env _ 0 s')
      have ha : a ∉ ["-v", "-h", "-p", "-restart", "-exit"] := by
        simp [hv, hh, hp, hr, he]
      by_cases hd : a = "-display" → rest = []
      · rw [argLoop_usage env a rest s ha hd, DoExit_eq] at h
        simp at h
      · rw [Classical.not_imp] at hd
        obtain ⟨hd1, hd2⟩ := hd
        cases rest with
        | nil => exact absurd rfl hd2
        | cons name rest' =>
          subst hd1
          rw [argLoop_display] at h
          have hlen' : rest'.length ≤ n := by
            simp only [List.length_cons] at hlen
            omega
          have := ih rest' _ hlen' h
          rw [this]

theorem argLoop_ret (env : Env σ) (args : List String) (s s' : State σ)
    (h : argLoop env args s = .ret s') : s' = { s with displayString := s'.displayString } :=
  argLoop_ret_aux env s' args.length args s (Nat.le_refl _) h

theorem StartupConnection_some (env : Env σ) (s : State σ) (d : Display)
    (hd : env.JXOpenDisplay s.displayString = some d) :
    StartupConnection env s
      = .ret { s with display := some d, rootScreen := d.screen, rootWindow := d.root,
                      rootWidth := d.width, rootHeight := d.height, rootDepth := d.depth,
                      rootColormap := d.colormap, rootVisual := d.visual,
                      colormapCount := d.maxCmaps, initializing := false,
                      clientContext := env.XUniqueContext 0,
                      frameContext := env.XUniqueContext 1,
                      haveShape := if env.USE_SHAPE then env.JXShapeQueryExtension.1
                        else s.haveShape,
                      shapeEvent := if env.USE_SHAPE then env.JXShapeQueryExtension.2
                        else s.shapeEvent,
                      onSIGTERM := .HandleExit, onSIGINT := .HandleExit,
                      onSIGHUP := .HandleExit,
                      trace := s.trace
                        ++ StartupConnectionCalls env.USE_SHAPE env.JXShapeQueryExtension.1
                            s.displayString d.root } := by
  simp only [StartupConnection]
  rw [OpenConnection_some env _ d (by simpa using hd)]
  simp only [Result.bind]
  by_cases hu : env.USE_SHAPE = true
  · by_cases hs : env.JXShapeQueryExtension.1 = true
    · simp [signal, call, StartupConnectionCalls, hu, hs, List.append_assoc]
    · simp [signal, call, StartupConnectionCalls, hu, hs, List.append_assoc]
  · simp [signal, call, StartupConnectionCalls, hu, List.append_assoc]

/-- What a returning `StartupConnection` has done. -/
theorem StartupConnection_ret (env : Env σ) (s s' : State σ)
    (h : StartupConnection env s = .ret s') :
    ∃ d, env.JXOpenDisplay s.displayString = some d
      ∧ s'.display = some d ∧ s'.rootWindow = d.root ∧ s'.ctl = s.ctl
      ∧ s'.configPath = s.configPath ∧ s'.displayString = s.displayString
      ∧ s'.pending = s.pending
      ∧ s'.trace = s.trace
          ++ StartupConnectionCalls env.USE_SHAPE env.JXShapeQueryExtension.1
              s.displayString d.root := by
  cases hd : env.JXOpenDisplay s.displayString with
  | none =>
    simp only [StartupConnection] at h
    rw [OpenConnection_none env _ (by simpa using hd), DoExit_eq] at h
    simp [Result.bind] at h
  | some d =>
    rw [StartupConnection_some env s d hd] at h
    simp only [Result.ret.injEq] at h
    subst h
    exact ⟨d, rfl, rfl, rfl, rfl, rfl, rfl, rfl, rfl⟩

theorem bind_eq_ret (r : Result σ) (f : State σ → Result σ) (s' : State σ)
    (h : r.bind f = .ret s') : ∃ s, r = .ret s ∧ f s = .ret s' := by
  cases r <;> simp [Result.bind] at h
  exact ⟨_, rfl, h⟩

theorem enterCycle_eq (env : Env σ) (s : State σ) :
    enterCycle env s = EventLoop env (beforeEventLoop env s) := by
  simp only [enterCycle]
  rw [Startup_eq_step, ParseConfig_eq_step, Initialize_eq_step]
  simp [State.step, beforeEventLoop, List.append_assoc]

theorem leaveCycle_eq (env : Env σ) (s : State σ) :
    leaveCycle env s
      = s.step (phaseSub env .Destroy alphabeticalOrder ∘ phaseSub env .Shutdown shutdownOrder)
          (ShutdownCalls env.DISABLE_CONFIRM ++ DestroyCalls env.DISABLE_CONFIRM) := by
  unfold leaveCycle
  rw [Destroy_eq_step, Shutdown_eq_step, step_step]

/-- One returning cycle: the events it consumed and the calls it made. -/
theorem cycle_ret (env : Env σ) (s s' : State σ) (h : enterCycle env s = .ret s') :
    ∃ used, s.pending = used ++ s'.pending
      ∧ leaveCycle env s'
          = { s with ctl := (leaveCycle env s').ctl, pending := s'.pending,
                     trace := s.trace
                       ++ cycleCalls env.DISABLE_CONFIRM s.configPath s.rootWindow used }
      ∧ (leaveCycle env s').ctl.shouldRestart = s'.ctl.shouldRestart := by
  rw [enterCycle_eq] at h
  obtain ⟨used, h1, h2, _⟩ := EventLoop_go_ret env _ _ s' rfl h
  refine ⟨used, h1, ?_, ?_⟩
  · rw [leaveCycle_eq]
    rw [h2]
    simp [State.step, beforeEventLoop, cycleCalls, List.append_assoc]
  · rw [leaveCycle_eq]
    rfl

theorem restartLoop_succ (env : Env σ) (fuel : Nat) (s s' : State σ)
    (h : enterCycle env s = .ret s') :
    restartLoop env (fuel + 1) s
      = if (leaveCycle env s').ctl.shouldRestart then restartLoop env fuel (leaveCycle env s')
        else .ret (leaveCycle env s') := by
  simp [restartLoop, h, Result.bind]

theorem RestartsThenStops_zero (env : Env σ) (s : State σ)
    (h : RestartsThenStops env 0 s = true) :
    ∃ s', enterCycle env s = .ret s' ∧ s'.ctl.shouldRestart = false := by
  unfold RestartsThenStops at h
  cases hc : enterCycle env s with
  | ret s' => rw [hc] at h; exact ⟨s', rfl, by simpa using h⟩
  | exit c s' => rw [hc] at h; simp at h
  | exec s' => rw [hc] at h; simp at h
  | block s' => rw [hc] at h; simp at h
  | timeout s' => rw [hc] at h; simp at h

theorem RestartsThenStops_succ (env : Env σ) (n : Nat) (s : State σ)
    (h : RestartsThenStops env (n + 1) s = true) :
    ∃ s', enterCycle env s = .ret s' ∧ s'.ctl.shouldRestart = true
      ∧ RestartsThenStops env n (leaveCycle env s') = true := by
  unfold RestartsThenStops at h
  cases hc : enterCycle env s with
  | ret s' =>
    rw [hc] at h
    simp only [Bool.and_eq_true] at h
    exact ⟨s', rfl, h.1, h.2⟩
  | exit c s' => rw [hc] at h; simp at h
  | exec s' => rw [hc] at h; simp at h
  | block s' => rw [hc] at h; simp at h
  | timeout s' => rw [hc] at h; simp at h

/-- The restart loop after `n` restarts followed by a stop. -/
theorem restartLoop_ret (env : Env σ) :
    ∀ (n fuel : Nat) (s : State σ), n < fuel → RestartsThenStops env n s →
      ∃ (evss : List (List XEvent)) (sEnd : State σ),
        evss.length = n + 1 ∧ restartLoop env fuel s = .ret sEnd
        ∧ s.pending = evss.flatten ++ sEnd.pending
        ∧ sEnd = { s with ctl := sEnd.ctl, pending := sEnd.pending,
                          trace := s.trace
                            ++ evss.flatMap
                                (cycleCalls env.DISABLE_CONFIRM s.configPath s.rootWindow) }
        ∧ sEnd.ctl.shouldRestart = false := by
  intro n
  induction n with
  | zero =>
    intro fuel s hfuel hc
    obtain ⟨s', h1, h2⟩ := RestartsThenStops_zero env s hc
    obtain ⟨fuel', rfl⟩ : ∃ k, fuel = k + 1 := ⟨fuel - 1, by omega⟩
    obtain ⟨used, hu1, hu2, hu3⟩ := cycle_ret env s s' h1
    refine ⟨[used], leaveCycle env s', rfl, ?_, ?_, ?_, ?_⟩
    · rw [restartLoop_succ env fuel' s s' h1, hu3, h2]
      simp
    · rw [hu2]; simpa using hu1
    · conv_lhs => rw [hu2]
      rw [hu2]
      simp
    · rw [hu3, h2]
  | succ n ih =>
    intro fuel s hfuel hc
    obtain ⟨s', h1, h2, h3⟩ := RestartsThenStops_succ env n s hc
    obtain ⟨fuel', rfl⟩ : ∃ k, fuel = k + 1 := ⟨fuel - 1, by omega⟩
    obtain ⟨used, hu1, hu2, hu3⟩ := cycle_ret env s s' h1
    obtain ⟨evss, sEnd, e1, e2, e3, e4, e5⟩ := ih fuel' (leaveCycle env s') (by omega) h3
    refine ⟨used :: evss, sEnd, by simp [e1], ?_, ?_, ?_, e5⟩
    · rw [restartLoop_succ env fuel' s s' h1, hu3, h2]
      simpa using e2
    · rw [hu2] at e3
      rw [hu1]
      simp only [List.flatten_cons, List.append_assoc]
      exact congrArg _ e3
    · rw [hu2] at e4
      rw [e4]
      simp [List.flatMap_cons, List.append_assoc]

theorem finalExit_trace (env : Env σ) (s : State σ) :
    (finalExit env s).state.trace
      = s.trace ++ ShutdownConnectionCalls
          ++ afterConnectionCalls env s.configPath s.ctl.exitCommand := by
  cases hc : s.ctl.exitCommand with
  | none =>
    simp [finalExit, ShutdownConnection, CloseConnection, call, hc, DoExit_eq, Result.state,
      ShutdownConnectionCalls, afterConnectionCalls, List.append_assoc]
  | some cmd =>
    by_cases hx : env.execl env.SHELL_NAME [env.SHELL_NAME, "-c", cmd] = true
    · simp [finalExit, ShutdownConnection, CloseConnection, call, hc, hx, Result.state,
        ShutdownConnectionCalls, afterConnectionCalls, List.append_assoc]
    · simp [finalExit, ShutdownConnection, CloseConnection, call, hc, hx, DoExit_eq,
        Result.state, ShutdownConnectionCalls, afterConnectionCalls, List.append_assoc]

theorem restartLoop_frame (env : Env σ) :
    ∀ (fuel : Nat) (s sEnd : State σ), restartLoop env fuel s = .ret sEnd →
      sEnd = { s with ctl := sEnd.ctl, pending := sEnd.pending, trace := sEnd.trace }
      ∧ sEnd.ctl.shouldRestart = false := by
  intro fuel
  induction fuel with
  | zero => intro s sEnd h; simp [restartLoop] at h
  | succ fuel ih =>
    intro s sEnd h
    cases hc : enterCycle env s with
    | ret s' =>
      rw [restartLoop_succ env fuel s s' hc] at h
      obtain ⟨used, hu1, hu2, hu3⟩ := cycle_ret env s s' hc
      by_cases hr : (leaveCycle env s').ctl.shouldRestart = true
      · rw [if_pos hr] at h
        obtain ⟨i1, i2⟩ := ih _ _ h
        rw [hu2] at i1
        exact ⟨by rw [i1], i2⟩
      · rw [if_neg hr] at h
        simp only [Result.ret.injEq] at h
        subst h
        exact ⟨by rw [hu2], by simpa using hr⟩
    | exit c s' => simp [restartLoop, hc, Result.bind] at h
    | exec s' => simp [restartLoop, hc, Result.bind] at h
    | block s' => simp [restartLoop, hc, Result.bind] at h
    | timeout s' => simp [restartLoop, hc, Result.bind] at h

/-- Reaching the main mode: the state after the argument loop and
`StartupConnection` have both returned. -/
theorem main_mode_state (env : Env σ) (argv : List String) (sub : σ) (events : List XEvent)
    (s1 : State σ)
    (hmode : (argLoop env (argv.drop 1) (mainInit env sub events)).bind (StartupConnection env)
      = .ret s1) :
    ∃ d, s1.display = some d ∧ s1.rootWindow = d.root
      ∧ s1.configPath = some (defaultConfigPath env.HOME) ∧ s1.pending = events
      ∧ s1.ctl.exitCommand = none
      ∧ s1.trace = [.StartDebug]
          ++ StartupConnectionCalls env.USE_SHAPE env.JXShapeQueryExtension.1
              s1.displayString d.root := by
  obtain ⟨s0, h0, h1⟩ := bind_eq_ret _ _ _ hmode
  have ha := argLoop_ret env _ _ _ h0
  obtain ⟨d, _, c1, c2, c3, c4, c5, c6, c7⟩ := StartupConnection_ret env s0 s1 h1
  rw [mainInit_eq] at ha
  refine ⟨d, c1, c2, ?_, ?_, ?_, ?_⟩
  · rw [c4, ha]
  · rw [c6, ha]; rfl
  · rw [c3, ha]; rfl
  · rw [c7, c5, ha]

theorem main_eq_finalExit (env : Env σ) (fuel : Nat) (argv : List String) (sub : σ)
    (events : List XEvent) (s1 s2 : State σ)
    (hmode : (argLoop env (argv.drop 1) (mainInit env sub events)).bind (StartupConnection env)
      = .ret s1)
    (hloop : restartLoop env fuel s1 = .ret s2) :
    main env fuel argv sub events = finalExit env s2 := by
  unfold main
  rw [← bind_assoc, hmode]
  simp [Result.bind, hloop]

/-- C8: once the restart loop has returned (with `shouldRestart` false),
`main` closes the connection first; with no exit command it then leaves
through `DoExit(0)`; with an exit command it calls `execl` on the shell with
`-c` and the command, and the process image is replaced; when `execl` fails it
calls `Warning` and leaves through `DoExit(1)`.  In both `DoExit` cases the
Destroy hooks run once more and the configuration path and the exit command
are released before the process ends. -/
theorem final_exit_path (env : Env σ) (fuel : Nat) (argv : List String) (sub : σ)
    (events : List XEvent) (s1 s2 : State σ)
    (hmode : (argLoop env (argv.drop 1) (mainInit env sub events)).bind (StartupConnection env)
      = .ret s1)
    (hloop : restartLoop env fuel s1 = .ret s2) :
    main env fuel argv sub events = finalExit env s2
    ∧ s2.ctl.shouldRestart = false
    ∧ s2.configPath = some (defaultConfigPath env.HOME)
    ∧ (s2.ctl.exitCommand = none →
        (finalExit env s2).status = some 0
        ∧ (finalExit env s2).state.trace
            = s2.trace ++ [.JXFlush, .JXCloseDisplay] ++ DestroyCalls env.DISABLE_CONFIRM
              ++ [.Release (defaultConfigPath env.HOME), .StopDebug]
        ∧ (finalExit env s2).state.configPath = none)
    ∧ (∀ cmd, s2.ctl.exitCommand = some cmd →
        env.execl env.SHELL_NAME [env.SHELL_NAME, "-c", cmd] = true →
        finalExit env s2
          = .exec { s2 with trace := s2.trace
              ++ [.JXFlush, .JXCloseDisplay,
                  .execl env.SHELL_NAME [env.SHELL_NAME, "-c", cmd]] })
    ∧ (∀ cmd, s2.ctl.exitCommand = some cmd →
        env.execl env.SHELL_NAME [env.SHELL_NAME, "-c", cmd] = false →
        (finalExit env s2).status = some 1
        ∧ (finalExit env s2).state.trace
            = s2.trace
              ++ [.JXFlush, .JXCloseDisplay,
                  .execl env.SHELL_NAME [env.SHELL_NAME, "-c", cmd],
                  .Warning ("exec failed: (" ++ env.SHELL_NAME ++ ") " ++ cmd)]
              ++ DestroyCalls env.DISABLE_CONFIRM
              ++ [.Release (defaultConfigPath env.HOME), .Release cmd, .StopDebug]
        ∧ (finalExit env s2).state.configPath = none
        ∧ (finalExit env s2).state.ctl.exitCommand = none) := by
  obtain ⟨f1, f2⟩ := restartLoop_frame env fuel s1 s2 hloop
  obtain ⟨d, _, _, m3, _⟩ := main_mode_state env argv sub events s1 hmode
  have hcfg : s2.configPath = some (defaultConfigPath env.HOME) := by rw [f1]; exact m3
  refine ⟨main_eq_finalExit env fuel argv sub events s1 s2 hmode hloop, f2, hcfg, ?_, ?_, ?_⟩
  · intro hc
    simp [finalExit, ShutdownConnection, CloseConnection, call, hc, hcfg, DoExit_eq,
      Result.state, Result.status, DoExitCalls, releaseCalls, List.append_assoc]
  · intro cmd hc hx
    simp [finalExit, ShutdownConnection, CloseConnection, call, hc, hx, List.append_assoc]
  · intro cmd hc hx
    simp [finalExit, ShutdownConnection, CloseConnection, call, hc, hcfg, hx, DoExit_eq,
      Result.state, Result.status, DoExitCalls, releaseCalls, List.append_assoc]

/-- Witness for C8: `jwm` receiving an exit request that names a command,
with a shell that cannot be executed. -/
theorem final_exit_path_witness :
    (main demoEnv 1 ["jwm"] () [exitWithCommand]).status = some 1 := by
  have h := final_exit_path demoEnv 1 ["jwm"] () [exitWithCommand]
    ((argLoop demoEnv [] (mainInit demoEnv () [exitWithCommand])).bind
      (StartupConnection demoEnv)).state
    (restartLoop demoEnv 1
      ((argLoop demoEnv [] (mainInit demoEnv () [exitWithCommand])).bind
        (StartupConnection demoEnv)).state).state
    rfl rfl
  rw [h.1]
  exact (h.2.2.2.2.2 "xterm" rfl rfl).1

theorem not_isConnection_of_mem_cycleCalls {dc : Bool} {path : Option String} {root : Nat}
    {used : List XEvent} {c : Call} (h : c ∈ cycleCalls dc path root used) :
    c.isConnection = false := by
  simp only [cycleCalls, InitializeCalls, StartupCalls, ShutdownCalls, DestroyCalls,
    EventLoopCalls, List.mem_append, List.mem_flatMap, List.mem_cons, List.mem_singleton,
    List.not_mem_nil, or_false] at h
  rcases h with ((((h | h) | h) | h) | h) | h
  · obtain ⟨k, rfl⟩ := mem_hookCalls h; rfl
  · subst h; rfl
  · rcases h with h | h | h | h | h
    · obtain ⟨k, rfl⟩ := mem_hookCalls h; rfl
    all_goals subst h; rfl
  · obtain ⟨e, _, h | h⟩ := h <;> subst h <;> rfl
  · obtain ⟨k, rfl⟩ := mem_hookCalls h; rfl
  · obtain ⟨k, rfl⟩ := mem_hookCalls h; rfl

theorem filter_cycles (dc : Bool) (path : Option String) (root : Nat)
    (evss : List (List XEvent)) :
    (evss.flatMap (cycleCalls dc path root)).filter Call.isConnection = [] := by
  rw [List.filter_eq_nil_iff]
  intro c hc
  obtain ⟨used, _, h⟩ := List.mem_flatMap.1 hc
  simp [not_isConnection_of_mem_cycleCalls h]

theorem filter_StartupConnectionCalls (useShape haveShape : Bool) (target : Option String)
    (root : Nat) :
    (StartupConnectionCalls useShape haveShape target root).filter Call.isConnection
      = [.JXOpenDisplay target] := by
  cases useShape <;> simp [StartupConnectionCalls, Call.isConnection]

theorem filter_afterConnectionCalls (env : Env σ) (cfg cmd : Option String) :
    (afterConnectionCalls env cfg cmd).filter Call.isConnection = [] := by
  cases cmd with
  | none => simp [afterConnectionCalls, filter_DoExitCalls]
  | some c =>
    by_cases hx : env.execl env.SHELL_NAME [env.SHELL_NAME, "-c", c] = true
    · simp [afterConnectionCalls, hx, Call.isConnection]
    · simp [afterConnectionCalls, hx, Call.isConnection, filter_DoExitCalls]

/-- C1: when `main` reaches the main mode (the argument loop and
`StartupConnection` return) and the event loops of the first `n` cycles end
with `shouldRestart` true and that of cycle `n + 1` with `shouldRestart` false,
the calls of the run are: `StartDebug`, those of `StartupConnection` once,
those of `n + 1` cycles (`Initialize`, `ParseConfig`, `Startup`, `EventLoop`,
`Shutdown`, `Destroy`, each cycle on its own share of the events), those of
`ShutdownConnection` once, and those of the exit path; the only calls that
open or close the connection are the first `JXOpenDisplay` and the last
`JXCloseDisplay`; and every cycle enters its event loop with `shouldExit`
and `shouldRestart` false, so that its outcome does not depend on the values
of the two flags with which it is entered. -/
theorem main_restart_cycles (env : Env σ) (fuel n : Nat) (argv : List String) (sub : σ)
    (events : List XEvent) (s1 : State σ)
    (hmode : (argLoop env (argv.drop 1) (mainInit env sub events)).bind (StartupConnection env)
      = .ret s1)
    (hcycles : RestartsThenStops env n s1 = true) (hfuel : n < fuel) :
    (∃ (d : Display) (evss : List (List XEvent)) (rest : List XEvent) (cmd : Option String),
      s1.display = some d ∧ evss.length = n + 1 ∧ events = evss.flatten ++ rest
      ∧ (main env fuel argv sub events).state.trace
          = [.StartDebug]
            ++ StartupConnectionCalls env.USE_SHAPE env.JXShapeQueryExtension.1
                s1.displayString d.root
            ++ evss.flatMap
                (cycleCalls env.DISABLE_CONFIRM (some (defaultConfigPath env.HOME)) d.root)
            ++ ShutdownConnectionCalls
            ++ afterConnectionCalls env (some (defaultConfigPath env.HOME)) cmd
      ∧ (main env fuel argv sub events).state.display = some d
      ∧ (main env fuel argv sub events).state.rootWindow = d.root)
    ∧ ((main env fuel argv sub events).state.trace).filter Call.isConnection
        = [.JXOpenDisplay s1.displayString, .JXCloseDisplay]
    ∧ (∀ (s : State σ) (b b' : Bool),
        enterCycle env { s with ctl := { s.ctl with shouldExit := b, shouldRestart := b' } }
          = enterCycle env s
        ∧ enterCycle env s = EventLoop env (beforeEventLoop env s)
        ∧ (beforeEventLoop env s).ctl.shouldExit = false
        ∧ (beforeEventLoop env s).ctl.shouldRestart = false) := by
  obtain ⟨d, m1, m2, m3, m4, _, m6⟩ := main_mode_state env argv sub events s1 hmode
  obtain ⟨evss, sEnd, e1, e2, e3, e4, _⟩ := restartLoop_ret env n fuel s1 hfuel hcycles
  have hmain := main_eq_finalExit env fuel argv sub events s1 sEnd hmode e2
  have hcfg : sEnd.configPath = some (defaultConfigPath env.HOME) := by rw [e4]; exact m3
  have htr : (main env fuel argv sub events).state.trace
      = [.StartDebug]
        ++ StartupConnectionCalls env.USE_SHAPE env.JXShapeQueryExtension.1
            s1.displayString d.root
        ++ evss.flatMap
            (cycleCalls env.DISABLE_CONFIRM (some (defaultConfigPath env.HOME)) d.root)
        ++ ShutdownConnectionCalls
        ++ afterConnectionCalls env (some (defaultConfigPath env.HOME)) sEnd.ctl.exitCommand := by
    rw [hmain, finalExit_trace, hcfg]
    conv_lhs => rw [e4]
    simp only [m6, m3, m2]
  have hframe : ∀ t : State σ, (finalExit env t).state.display = t.display
      ∧ (finalExit env t).state.rootWindow = t.rootWindow := by
    intro t
    cases hc : t.ctl.exitCommand with
    | none =>
      simp [finalExit, ShutdownConnection, CloseConnection, call, hc, DoExit_eq, Result.state]
    | some cmd =>
      by_cases hx : env.execl env.SHELL_NAME [env.SHELL_NAME, "-c", cmd] = true
      · simp [finalExit, ShutdownConnection, CloseConnection, call, hc, hx, Result.state]
      · simp [finalExit, ShutdownConnection, CloseConnection, call, hc, hx, DoExit_eq,
          Result.state]
  refine ⟨⟨d, evss, sEnd.pending, sEnd.ctl.exitCommand, m1, e1, ?_, htr, ?_, ?_⟩, ?_, ?_⟩
  · rw [← m4]; exact e3
  · rw [hmain, (hframe sEnd).1, e4]; exact m1
  · rw [hmain, (hframe sEnd).2, e4]; exact m2
  · rw [htr]
    simp [List.filter_append, filter_StartupConnectionCalls, filter_cycles,
      filter_afterConnectionCalls, ShutdownConnectionCalls, Call.isConnection]
  · intro s b b'
    refine ⟨?_, enterCycle_eq env s, rfl, rfl⟩
    rw [enterCycle_eq, enterCycle_eq]
    rfl

/-- Witness for C1: `jwm` receiving a restart request and then an exit
request runs two cycles. -/
theorem main_restart_cycles_witness :
    ((main demoEnv 2 ["jwm"] () [restartRequest, exitRequest]).state.trace).filter
        Call.isConnection
      = [.JXOpenDisplay none, .JXCloseDisplay] :=
  (main_restart_cycles demoEnv 2 1 ["jwm"] () [restartRequest, exitRequest]
    ((argLoop demoEnv [] (mainInit demoEnv () [restartRequest, exitRequest])).bind
      (StartupConnection demoEnv)).state
    rfl rfl (by decide)).2.1

end Theorems

end Jwm
